import Mathlib

/-!
# FastClick touch/click arbiter (`src/assets/shop.js`)

A shallow embedding of the FastClick event handlers bundled in `shop.js`
(`onTouchStart`, `onTouchMove`, `onTouchEnd`, `onTouchCancel`, `onMouse`,
`onClick` and the helpers they call), followed by theorems about them.

Modelling conventions
* JavaScript numbers (time stamps, coordinates, identifiers) are integers.
* A DOM node is referred to by a `NodeId`; what a handler reads from a node
  is looked up in a `Dom` snapshot taken when the handler runs, and the two
  expando properties FastClick writes on nodes (`fastClickScrollParent`,
  `fastClickLastScrollTop`) are fields of the node record, so a handler
  returns the updated `Dom`.
* Calls made on the event or on nodes (`preventDefault`, `focus`,
  `dispatchEvent`, ...) are recorded, in program order, as a list of
  `Effect`s.
* A handler either returns a boolean or stops with a `TypeError` (reading a
  property of `null`/`undefined`); assignments made before the error stay.
* The module-level booleans computed from `navigator.userAgent`
  (`deviceIsAndroid`, `deviceIsIOS`, ...) are the fields of `Platform`;
  `detect` computes them from a user-agent string.
* The layer's listeners are a list of registrations (`Layer`); the
  constructor is `attach`, preceded by `notNeeded` in `attachIn`.
-/

namespace FastClick

/-! ## Data model -/

/-- Reference to a DOM node (object identity). -/
abbrev NodeId := Nat

/-- The properties of a DOM node that the handlers read or write. -/
structure Node where
  /-- Holds `nodeType`; 1 is `ELEMENT_NODE`, 3 is `TEXT_NODE`. -/
  nodeType : Nat
  /-- Holds `tagName` (equal to `nodeName` for an element), as the DOM reports it. -/
  tagName : String
  /-- Holds the `type` property; the empty string when the node has none. -/
  type : String
  disabled : Bool
  readOnly : Bool
  className : String
  /-- Holds `parentNode`, `none` for `null`. -/
  parentNode : Option NodeId
  /-- The chain of `parentElement` links starting at this node's parent, nearest first. -/
  ancestors : List NodeId
  scrollHeight : Int
  offsetHeight : Int
  scrollTop : Int
  /-- Whether the node has a `setSelectionRange` method. -/
  hasSetSelectionRange : Bool
  /-- Holds `value.length`. -/
  valueLength : Nat
  /-- Holds `control`: `none` when the property is `undefined`, `some none` when it is `null`. -/
  control : Option (Option NodeId)
  htmlFor : String
  /-- Result of `querySelector` for the first labellable descendant. -/
  labellable : Option NodeId
  /-- Expando `fastClickScrollParent`, `none` while unset. -/
  fastClickScrollParent : Option NodeId
  /-- Expando `fastClickLastScrollTop`, `none` while unset. -/
  fastClickLastScrollTop : Option Int
  deriving DecidableEq

/-- What the handlers read from `document` and `window` when they run. -/
structure Dom where
  node : NodeId → Node
  /-- Holds `document.activeElement` as `sendClick` reads it. -/
  activeElement : Option NodeId
  /-- Holds `document.elementFromPoint`. -/
  elementFromPoint : Int → Int → Option NodeId
  pageXOffset : Int
  pageYOffset : Int
  /-- Holds `document.getElementById`. -/
  getElementById : String → Option NodeId
  /-- Holds `window.getSelection().rangeCount`. -/
  rangeCount : Nat
  /-- Holds `window.getSelection().isCollapsed`. -/
  isCollapsed : Bool
  /-- Whether `window.top !== window`. -/
  framed : Bool

/-- The module-level device flags of `shop.js`. -/
structure Platform where
  deviceIsAndroid : Bool
  deviceIsIOS : Bool
  deviceIsIOS4 : Bool
  deviceIsIOSWithBadTarget : Bool
  deviceIsBlackBerry10 : Bool
  deviceIsWindowsPhone : Bool
  deriving DecidableEq

/-- One entry of a touch list. -/
structure Touch where
  identifier : Int
  pageX : Int
  pageY : Int
  screenX : Int
  screenY : Int
  clientX : Int
  clientY : Int
  deriving DecidableEq

/-- A `touchstart`, `touchmove`, `touchend` or `touchcancel` event. -/
structure TouchEvent where
  target : NodeId
  timeStamp : Int
  targetTouches : List Touch
  changedTouches : List Touch
  deriving DecidableEq

/-- A `mouseover`, `mousedown`, `mouseup` or `click` event. -/
structure MouseEvent where
  target : NodeId
  /-- The marker `sendClick` puts on the events it creates. -/
  forwardedTouchEvent : Bool
  cancelable : Bool
  detail : Int
  /-- Whether the event object has a `stopImmediatePropagation` method. -/
  hasStopImmediatePropagation : Bool
  deriving DecidableEq

/-- The event `sendClick` builds with `initMouseEvent` and dispatches. -/
structure SyntheticEvent where
  /-- Either `click` or `mousedown`, from `determineEventType`. -/
  type : String
  target : NodeId
  detail : Int
  screenX : Int
  screenY : Int
  clientX : Int
  clientY : Int
  forwardedTouchEvent : Bool
  deriving DecidableEq

/-- A call a handler makes on the event it handles or on a node. -/
inductive Effect where
  | preventDefault
  | stopPropagation
  | stopImmediatePropagation
  /-- The assignment `event.propagationStopped = true`. -/
  | setPropagationStopped
  /-- The call `node.focus()`. -/
  | focus (node : NodeId)
  /-- The call `node.setSelectionRange(a, b)`. -/
  | setSelectionRange (node : NodeId) (a b : Nat)
  /-- The call `node.blur()`. -/
  | blur (node : NodeId)
  /-- The call `ev.target.dispatchEvent(ev)`. -/
  | dispatch (ev : SyntheticEvent)
  deriving DecidableEq

/-- How a handler call ends. -/
inductive Completion where
  | returned (value : Bool)
  /-- A handler without a return value ran to its end. -/
  | returnedVoid
  /-- A property of `null` or `undefined` was read. -/
  | typeError
  deriving DecidableEq

/-- The instance fields of a `FastClick` object. -/
structure State where
  trackingClick : Bool
  trackingClickStart : Int
  /-- Holds `targetElement`, `none` for `null`. -/
  targetElement : Option NodeId
  touchStartX : Int
  touchStartY : Int
  lastTouchIdentifier : Int
  touchBoundary : Int
  layer : NodeId
  tapDelay : Int
  tapTimeout : Int
  /-- Never assigned by the constructor: `none` is `undefined`. -/
  lastClickTime : Option Int
  /-- Never assigned by the constructor: `none` is `undefined`. -/
  cancelNextClick : Option Bool
  deriving DecidableEq

/-- The `options` argument of the constructor; `none` is an absent key. -/
structure Options where
  touchBoundary : Option Int
  tapDelay : Option Int
  tapTimeout : Option Int
  deriving DecidableEq

/-- What a handler call leaves behind. -/
structure Outcome where
  state : State
  dom : Dom
  effects : List Effect
  result : Completion

/-! ## Helpers standing for JavaScript built-ins -/

/-- Models `String.prototype.toLowerCase` on ASCII names. -/
def toLowerCase (s : String) : String :=
  String.mk (s.data.map Char.toLower)

/-- A word character of a regular expression: `[A-Za-z0-9_]`. -/
def isWordChar (c : Char) : Bool :=
  c.isAlphanum || c == '_'

/-- Whether `w` is an initial segment of `l`, returning what follows it. -/
def stripWord : List Char → List Char → Option (List Char)
  | [], l => some l
  | _ :: _, [] => none
  | a :: w, b :: l => if a = b then stripWord w l else none

/-- Whether the word `w` starts at the head of `l` and ends at a word boundary. -/
def wordHere (w l : List Char) : Bool :=
  match stripWord w l with
  | none => false
  | some [] => true
  | some (d :: _) => !isWordChar d

/-- Scan for `\bw\b`; `prev` says whether the character before `l` is a word character. -/
def scanWord (w : List Char) : Bool → List Char → Bool
  | _, [] => false
  | prev, c :: cs => (!prev && wordHere w (c :: cs)) || scanWord w (isWordChar c) cs

/-- Models `/\bw\b/.test(s)` for a word `w` made of word characters. -/
def testWord (w s : String) : Bool :=
  scanWord w.data false s.data

/-- JavaScript truthiness of a number. -/
def truthy (n : Int) : Bool := n != 0

/-- Models `a || d` for an optional numeric option `a`. -/
def orDefault (a : Option Int) (d : Int) : Int :=
  match a with
  | some v => if truthy v then v else d
  | none => d

/-- Models `(t - last) < delay`, which is false when `last` is `undefined` (the difference is `NaN`). -/
def elapsedLess (t : Int) (last : Option Int) (delay : Int) : Bool :=
  match last with
  | some l => decide (t - l < delay)
  | none => false

/-! ## Element classification -/

/-- Models `FastClick.prototype.needsClick`. -/
def needsClick (p : Platform) (target : Node) : Bool :=
  let name := toLowerCase target.tagName
  if name = "button" ∨ name = "select" ∨ name = "textarea" then
    if target.disabled then true else testWord "needsclick" target.className
  else if name = "input" then
    if (p.deviceIsIOS && target.type == "file") || target.disabled then true
    else testWord "needsclick" target.className
  else if name = "label" ∨ name = "iframe" ∨ name = "video" then true
  else testWord "needsclick" target.className

/-- Models `FastClick.prototype.needsFocus`. -/
def needsFocus (p : Platform) (target : Node) : Bool :=
  let name := toLowerCase target.tagName
  if name = "textarea" then true
  else if name = "select" then !p.deviceIsAndroid
  else if name = "input" then
    if target.type = "button" ∨ target.type = "checkbox" ∨ target.type = "file" ∨
        target.type = "image" ∨ target.type = "radio" ∨ target.type = "submit" then false
    else !target.disabled && !target.readOnly
  else testWord "needsfocus" target.className

/-- Models `FastClick.prototype.determineEventType`. -/
def determineEventType (p : Platform) (target : Node) : String :=
  if p.deviceIsAndroid && toLowerCase target.tagName == "select" then "mousedown" else "click"

/-! ## Calls on nodes -/

/-- Models `FastClick.prototype.sendClick`: the calls it makes, and whether it ran to its end
(it stops with a `TypeError` when `event.changedTouches[0]` is `undefined`). -/
def sendClick (p : Platform) (dom : Dom) (targetElement : NodeId) (event : TouchEvent) :
    List Effect × Bool :=
  let blurs : List Effect :=
    match dom.activeElement with
    | some a => if a ≠ targetElement then [Effect.blur a] else []
    | none => []
  match event.changedTouches.head? with
  | none => (blurs, false)
  | some touch =>
    (blurs ++ [Effect.dispatch
      { type := determineEventType p (dom.node targetElement)
        target := targetElement
        detail := 1
        screenX := touch.screenX
        screenY := touch.screenY
        clientX := touch.clientX
        clientY := touch.clientY
        forwardedTouchEvent := true }], true)

/-- Models `FastClick.prototype.focus`. -/
def focus (p : Platform) (dom : Dom) (targetElement : NodeId) : List Effect :=
  let n := dom.node targetElement
  if p.deviceIsIOS && n.hasSetSelectionRange && (stripWord "date".data n.type.data).isNone &&
      n.type != "time" && n.type != "month" then
    [Effect.setSelectionRange targetElement n.valueLength n.valueLength]
  else
    [Effect.focus targetElement]

/-- Replace the record of one node. -/
def Dom.setNode (dom : Dom) (i : NodeId) (n : Node) : Dom :=
  { dom with node := fun j => if j = i then n else dom.node j }

/-- Models `scrollParent.contains(targetElement)`. -/
def contains (dom : Dom) (scrollParent targetElement : NodeId) : Bool :=
  scrollParent == targetElement || (dom.node targetElement).ancestors.contains scrollParent

/-- The `do ... while (parentElement)` walk of `updateScrollParent`: the first node of the
chain whose content overflows. -/
def findScrollable (dom : Dom) : List NodeId → Option NodeId
  | [] => none
  | e :: rest =>
    if (dom.node e).scrollHeight > (dom.node e).offsetHeight then some e
    else findScrollable dom rest

/-- The end of `updateScrollParent`: `old` is the value `fastClickScrollParent` had on the
target and `found` what the walk discovered (`none` when the walk was skipped or found
nothing). The discovered node is stored on the target, and the scroll parent in force
(`found`, else `old`) gets its current `scrollTop` stored in `fastClickLastScrollTop`. -/
def recordScrollParent (dom : Dom) (targetElement : NodeId) (old found : Option NodeId) : Dom :=
  let dom1 : Dom :=
    match found with
    | some e => dom.setNode targetElement { dom.node targetElement with fastClickScrollParent := some e }
    | none => dom
  let scrollParent : Option NodeId :=
    match found with
    | some e => some e
    | none => old
  match scrollParent with
  | some sp => dom1.setNode sp { dom1.node sp with fastClickLastScrollTop := some (dom1.node sp).scrollTop }
  | none => dom1

/-- Models `FastClick.prototype.updateScrollParent`. -/
def updateScrollParent (dom : Dom) (targetElement : NodeId) : Dom :=
  let old := (dom.node targetElement).fastClickScrollParent
  let stale : Bool :=
    match old with
    | none => true
    | some sp => !contains dom sp targetElement
  let found : Option NodeId :=
    if stale then findScrollable dom (targetElement :: (dom.node targetElement).ancestors)
    else none
  recordScrollParent dom targetElement old found

/-- Models `FastClick.prototype.getTargetElementFromEventTarget`. -/
def getTargetElementFromEventTarget (dom : Dom) (eventTarget : NodeId) : Option NodeId :=
  if (dom.node eventTarget).nodeType = 3 then (dom.node eventTarget).parentNode
  else some eventTarget

/-- Models `FastClick.prototype.findControl`; `none` is `null`. -/
def findControl (dom : Dom) (labelElement : NodeId) : Option NodeId :=
  match (dom.node labelElement).control with
  | some c => c
  | none =>
    if (dom.node labelElement).htmlFor ≠ "" then dom.getElementById (dom.node labelElement).htmlFor
    else (dom.node labelElement).labellable

/-! ## The constructor's field initialisation -/

/-- The assignments to `this` at the head of the `FastClick` constructor; `options` is
`none` when the argument is omitted. -/
def initialState (layer : NodeId) (options : Option Options) : State :=
  let o : Options := options.getD ⟨none, none, none⟩
  { trackingClick := false
    trackingClickStart := 0
    targetElement := none
    touchStartX := 0
    touchStartY := 0
    lastTouchIdentifier := 0
    touchBoundary := orDefault o.touchBoundary 10
    layer := layer
    tapDelay := orDefault o.tapDelay 200
    tapTimeout := orDefault o.tapTimeout 700
    lastClickTime := none
    cancelNextClick := none }

/-! ## Event handlers -/

/-- A handler returning `value` without having done anything. -/
def pass (s : State) (dom : Dom) (value : Bool) : Outcome :=
  { state := s, dom := dom, effects := [], result := Completion.returned value }

/-- The part of `onTouchStart` from `this.trackingClick = true` on, reached once the
platform checks are through; `targetElement` is the local variable of that name. -/
def touchStartTrack (s : State) (dom : Dom) (event : TouchEvent)
    (targetElement : Option NodeId) : Outcome :=
  let s1 : State :=
    { s with trackingClick := true, trackingClickStart := event.timeStamp,
             targetElement := targetElement }
  match event.targetTouches.head? with
  | none => { state := s1, dom := dom, effects := [], result := Completion.typeError }
  | some touch =>
    { state := { s1 with touchStartX := touch.pageX, touchStartY := touch.pageY }
      dom := dom
      effects :=
        if elapsedLess event.timeStamp s.lastClickTime s.tapDelay then [Effect.preventDefault]
        else []
      result := Completion.returned true }

/-- Models `FastClick.prototype.onTouchStart`. -/
def onTouchStart (p : Platform) (dom : Dom) (s : State) (event : TouchEvent) : Outcome :=
  if event.targetTouches.length > 1 then pass s dom true
  else
    let targetElement := getTargetElementFromEventTarget dom event.target
    if p.deviceIsIOS then
      if dom.rangeCount != 0 && !dom.isCollapsed then pass s dom true
      else if !p.deviceIsIOS4 then
        match event.targetTouches.head? with
        | none => { state := s, dom := dom, effects := [], result := Completion.typeError }
        | some touch =>
          if truthy touch.identifier && touch.identifier == s.lastTouchIdentifier then
            { state := s, dom := dom, effects := [Effect.preventDefault],
              result := Completion.returned false }
          else
            let s0 : State := { s with lastTouchIdentifier := touch.identifier }
            match targetElement with
            | none => { state := s0, dom := dom, effects := [], result := Completion.typeError }
            | some t => touchStartTrack s0 (updateScrollParent dom t) event targetElement
      else touchStartTrack s dom event targetElement
    else touchStartTrack s dom event targetElement

/-- Models `FastClick.prototype.touchHasMoved`; `none` is a `TypeError`
(`event.changedTouches[0]` is `undefined`). -/
def touchHasMoved (s : State) (event : TouchEvent) : Option Bool :=
  match event.changedTouches.head? with
  | none => none
  | some touch =>
    some (decide (|touch.pageX - s.touchStartX| > s.touchBoundary) ||
          decide (|touch.pageY - s.touchStartY| > s.touchBoundary))

/-- Models `FastClick.prototype.onTouchMove`. -/
def onTouchMove (dom : Dom) (s : State) (event : TouchEvent) : Outcome :=
  if !s.trackingClick then pass s dom true
  else if s.targetElement ≠ getTargetElementFromEventTarget dom event.target then
    pass { s with trackingClick := false, targetElement := none } dom true
  else
    match touchHasMoved s event with
    | none => { state := s, dom := dom, effects := [], result := Completion.typeError }
    | some true => pass { s with trackingClick := false, targetElement := none } dom true
    | some false => pass s dom true

/-- The test `scrollParent && scrollParent.fastClickLastScrollTop !== scrollParent.scrollTop`
that `onTouchEnd` makes on `targetElement.fastClickScrollParent`. -/
def scrollParentMoved (dom : Dom) (targetElement : NodeId) : Bool :=
  match (dom.node targetElement).fastClickScrollParent with
  | none => false
  | some sp => (dom.node sp).fastClickLastScrollTop != some (dom.node sp).scrollTop

/-- The tail of `onTouchEnd`, from the fling-scroll check on; `fx` are the calls made so far. -/
def touchEndForward (p : Platform) (dom : Dom) (s : State) (event : TouchEvent)
    (targetElement : NodeId) (fx : List Effect) : Outcome :=
  if p.deviceIsIOS && !p.deviceIsIOS4 && scrollParentMoved dom targetElement then
    { state := s, dom := dom, effects := fx, result := Completion.returned true }
  else if !needsClick p (dom.node targetElement) then
    let sent := sendClick p dom targetElement event
    { state := s, dom := dom, effects := fx ++ [Effect.preventDefault] ++ sent.1
      result := if sent.2 then Completion.returned false else Completion.typeError }
  else
    { state := s, dom := dom, effects := fx, result := Completion.returned false }

/-- The part of `onTouchEnd` from `targetTagName = ...` on, for a non-null `targetElement`;
`trackingClickStart` is the local copy taken before the field was reset. -/
def touchEndDecide (p : Platform) (dom : Dom) (s : State) (event : TouchEvent)
    (trackingClickStart : Int) (targetElement : NodeId) : Outcome :=
  let targetTagName := toLowerCase (dom.node targetElement).tagName
  if targetTagName = "label" then
    match findControl dom targetElement with
    | some forElement =>
      let fx := focus p dom targetElement
      if p.deviceIsAndroid then
        { state := s, dom := dom, effects := fx, result := Completion.returned false }
      else touchEndForward p dom s event forElement fx
    | none => touchEndForward p dom s event targetElement []
  else if needsFocus p (dom.node targetElement) then
    if decide (event.timeStamp - trackingClickStart > 100) ||
        (p.deviceIsIOS && dom.framed && targetTagName == "input") then
      { state := { s with targetElement := none }, dom := dom, effects := [],
        result := Completion.returned false }
    else
      let fx := focus p dom targetElement
      let sent := sendClick p dom targetElement event
      if !sent.2 then
        { state := s, dom := dom, effects := fx ++ sent.1, result := Completion.typeError }
      else if !p.deviceIsIOS || targetTagName != "select" then
        { state := { s with targetElement := none }, dom := dom
          effects := fx ++ sent.1 ++ [Effect.preventDefault]
          result := Completion.returned false }
      else
        { state := s, dom := dom, effects := fx ++ sent.1, result := Completion.returned false }
  else touchEndForward p dom s event targetElement []

/-- The target `onTouchEnd` acts on and the `Dom` after the `deviceIsIOSWithBadTarget` block;
`none` is a `TypeError` inside that block, `some (none, _)` a `null` target. -/
def resolveTarget (p : Platform) (dom : Dom) (s : State) (event : TouchEvent) :
    Option (Option NodeId × Dom) :=
  if p.deviceIsIOSWithBadTarget then
    match event.changedTouches.head? with
    | none => none
    | some touch =>
      let hit := dom.elementFromPoint (touch.pageX - dom.pageXOffset) (touch.pageY - dom.pageYOffset)
      let targetElement : Option NodeId :=
        match hit with
        | some e => some e
        | none => s.targetElement
      match targetElement, s.targetElement with
      | some t, some orig =>
        some (some t, dom.setNode t
          { dom.node t with fastClickScrollParent := (dom.node orig).fastClickScrollParent })
      | _, _ => none
  else some (s.targetElement, dom)

/-- The assignments `onTouchEnd` makes once the two timing checks are passed. -/
def committed (s : State) (event : TouchEvent) : State :=
  { s with cancelNextClick := some false, lastClickTime := some event.timeStamp,
           trackingClick := false, trackingClickStart := 0 }

/-- The part of `onTouchEnd` after the two timing checks. -/
def touchEndCommit (p : Platform) (dom : Dom) (s : State) (event : TouchEvent) : Outcome :=
  match resolveTarget p dom s event with
  | none =>
    { state := committed s event, dom := dom, effects := [], result := Completion.typeError }
  | some (none, dom1) =>
    { state := committed s event, dom := dom1, effects := [], result := Completion.typeError }
  | some (some targetElement, dom1) =>
    touchEndDecide p dom1 (committed s event) event s.trackingClickStart targetElement

/-- Models `FastClick.prototype.onTouchEnd`. -/
def onTouchEnd (p : Platform) (dom : Dom) (s : State) (event : TouchEvent) : Outcome :=
  if !s.trackingClick then pass s dom true
  else if elapsedLess event.timeStamp s.lastClickTime s.tapDelay then
    pass { s with cancelNextClick := some true } dom true
  else if event.timeStamp - s.trackingClickStart > s.tapTimeout then pass s dom true
  else touchEndCommit p dom s event

/-- Models `FastClick.prototype.onTouchCancel`. -/
def onTouchCancel (dom : Dom) (s : State) : Outcome :=
  { state := { s with trackingClick := false, targetElement := none }, dom := dom,
    effects := [], result := Completion.returnedVoid }

/-- Models `FastClick.prototype.onMouse`. -/
def onMouse (p : Platform) (dom : Dom) (s : State) (event : MouseEvent) : Outcome :=
  match s.targetElement with
  | none => pass s dom true
  | some t =>
    if event.forwardedTouchEvent then pass s dom true
    else if !event.cancelable then pass s dom true
    else if !needsClick p (dom.node t) || s.cancelNextClick == some true then
      { state := s, dom := dom
        effects :=
          [if event.hasStopImmediatePropagation then Effect.stopImmediatePropagation
           else Effect.setPropagationStopped,
           Effect.stopPropagation, Effect.preventDefault]
        result := Completion.returned false }
    else pass s dom true

/-- Models `FastClick.prototype.onClick`. -/
def onClick (p : Platform) (dom : Dom) (s : State) (event : MouseEvent) : Outcome :=
  if s.trackingClick then
    pass { s with targetElement := none, trackingClick := false } dom true
  else if (dom.node event.target).type == "submit" && event.detail == 0 then pass s dom true
  else
    let permitted := onMouse p dom s event
    if permitted.result = Completion.returned false then
      { permitted with state := { permitted.state with targetElement := none } }
    else permitted

/-! ## Observations on an outcome -/

/-- The synthetic events dispatched among a list of calls, in order. -/
def dispatched : List Effect → List SyntheticEvent
  | [] => []
  | Effect.dispatch ev :: rest => ev :: dispatched rest
  | _ :: rest => dispatched rest

/-- The nodes given focus (by `focus()` or `setSelectionRange`) among a list of calls. -/
def focused : List Effect → List NodeId
  | [] => []
  | Effect.focus n :: rest => n :: focused rest
  | Effect.setSelectionRange n _ _ :: rest => n :: focused rest
  | _ :: rest => focused rest

/-- The calls by which `onMouse` cancels an event. -/
def suppression (event : MouseEvent) : List Effect :=
  [if event.hasStopImmediatePropagation then Effect.stopImmediatePropagation
   else Effect.setPropagationStopped,
   Effect.stopPropagation, Effect.preventDefault]

/-! ## Runs of the handlers -/

/-- The states an arbiter can be in: the constructor's state, then any sequence of handler
calls, each on whatever `Dom` the page has by then. A `touchstart` target resolves to a node
(a text node has a parent). -/
inductive Reachable (p : Platform) : State → Prop where
  | init (layer : NodeId) (options : Option Options) : Reachable p (initialState layer options)
  | touchStart {s : State} (dom : Dom) (event : TouchEvent) :
      Reachable p s → getTargetElementFromEventTarget dom event.target ≠ none →
      Reachable p (onTouchStart p dom s event).state
  | touchMove {s : State} (dom : Dom) (event : TouchEvent) :
      Reachable p s → Reachable p (onTouchMove dom s event).state
  | touchEnd {s : State} (dom : Dom) (event : TouchEvent) :
      Reachable p s → Reachable p (onTouchEnd p dom s event).state
  | touchCancel {s : State} (dom : Dom) :
      Reachable p s → Reachable p (onTouchCancel dom s).state
  | mouse {s : State} (dom : Dom) (event : MouseEvent) :
      Reachable p s → Reachable p (onMouse p dom s event).state
  | click {s : State} (dom : Dom) (event : MouseEvent) :
      Reachable p s → Reachable p (onClick p dom s event).state

/-! ## Listener wiring: the constructor and `destroy` -/

/-- The handler methods the constructor binds. -/
inductive Method where
  | onMouse
  | onClick
  | onTouchStart
  | onTouchMove
  | onTouchEnd
  | onTouchCancel
  deriving DecidableEq

/-- A function object that can be registered as a listener (object identity). -/
inductive Callback where
  /-- The function `bind(method, context)` made by the constructor of arbiter `inst`. -/
  | bound (inst : Nat) (m : Method)
  /-- The method `FastClick.prototype[m]` itself, which an arbiter keeps when its
  constructor returns before binding. -/
  | proto (m : Method)
  /-- The function the constructor of arbiter `inst` puts around the page's `onclick`
  handler `f`. -/
  | relocated (inst : Nat) (f : Nat)
  /-- The function stored in `callback.hijacked` by the replaced `addEventListener`. -/
  | hijacked (c : Callback)
  /-- A function of the page. -/
  | page (f : Nat)
  deriving DecidableEq

/-- One registration: the arguments of `addEventListener`. -/
structure Listener where
  type : String
  callback : Callback
  capture : Bool
  deriving DecidableEq

/-- The layer as the constructor and `destroy` see it. -/
structure Layer where
  /-- The registered listeners, in registration order. -/
  listeners : List Listener
  /-- Holds `layer.onclick` when it is a function, `none` otherwise. -/
  onclick : Option Nat
  /-- Whether `layer.addEventListener` and `layer.removeEventListener` have been replaced
  by the pair the constructor installs when `Event.prototype.stopImmediatePropagation` is
  missing. -/
  hijacking : Bool
  /-- The functions that carry a `hijacked` property. -/
  hijackedCallbacks : List Callback
  deriving DecidableEq

/-- Models `Node.prototype.addEventListener`: a registration already present is not
repeated. -/
def Layer.nativeAdd (layer : Layer) (l : Listener) : Layer :=
  if l ∈ layer.listeners then layer else { layer with listeners := layer.listeners ++ [l] }

/-- Models `Node.prototype.removeEventListener`. -/
def Layer.nativeRemove (layer : Layer) (l : Listener) : Layer :=
  { layer with listeners := layer.listeners.filter (fun x => x != l) }

/-- Models the call `layer.addEventListener(type, callback, capture)`, through the
replacement when it is installed. -/
def Layer.addEventListener (layer : Layer) (type : String) (callback : Callback)
    (capture : Bool) : Layer :=
  if layer.hijacking && type == "click" then
    Layer.nativeAdd
      { layer with
        hijackedCallbacks :=
          if callback ∈ layer.hijackedCallbacks then layer.hijackedCallbacks
          else callback :: layer.hijackedCallbacks }
      { type := type, callback := Callback.hijacked callback, capture := capture }
  else Layer.nativeAdd layer { type := type, callback := callback, capture := capture }

/-- Models the call `layer.removeEventListener(type, callback, capture)`, through the
replacement when it is installed. -/
def Layer.removeEventListener (layer : Layer) (type : String) (callback : Callback)
    (capture : Bool) : Layer :=
  if layer.hijacking && type == "click" then
    Layer.nativeRemove layer
      { type := type
        callback :=
          if callback ∈ layer.hijackedCallbacks then Callback.hijacked callback else callback
        capture := capture }
  else Layer.nativeRemove layer { type := type, callback := callback, capture := capture }

/-- A `FastClick` object: its fields, its identity, and whether the constructor got as far
as binding the handler methods. -/
structure Handle where
  state : State
  inst : Nat
  bound : Bool
  deriving DecidableEq

/-- The function held in `this[m]`. -/
def Handle.method (h : Handle) (m : Method) : Callback :=
  if h.bound then Callback.bound h.inst m else Callback.proto m

/-- Models the `FastClick` constructor (and so `FastClick.attach`) from the
`notNeeded` test on. `notNeeded` is the value `FastClick.notNeeded(layer)` returned,
`hasStopImmediatePropagation` whether `Event.prototype.stopImmediatePropagation` exists,
`inst` the identity of the new object, `layerId` the layer as a DOM node. -/
def attach (p : Platform) (hasStopImmediatePropagation notNeeded : Bool) (inst : Nat)
    (layerId : NodeId) (layer : Layer) (options : Option Options) : Handle × Layer :=
  let state := initialState layerId options
  if notNeeded then ({ state := state, inst := inst, bound := false }, layer)
  else
    let l1 : Layer :=
      if p.deviceIsAndroid then
        ((layer.addEventListener "mouseover" (Callback.bound inst Method.onMouse) true
          ).addEventListener "mousedown" (Callback.bound inst Method.onMouse) true
          ).addEventListener "mouseup" (Callback.bound inst Method.onMouse) true
      else layer
    let l2 : Layer :=
      ((((l1.addEventListener "click" (Callback.bound inst Method.onClick) true
        ).addEventListener "touchstart" (Callback.bound inst Method.onTouchStart) false
        ).addEventListener "touchmove" (Callback.bound inst Method.onTouchMove) false
        ).addEventListener "touchend" (Callback.bound inst Method.onTouchEnd) false
        ).addEventListener "touchcancel" (Callback.bound inst Method.onTouchCancel) false
    let l3 : Layer :=
      if !hasStopImmediatePropagation then { l2 with hijacking := true } else l2
    let l4 : Layer :=
      match l3.onclick with
      | some f =>
        { l3.addEventListener "click" (Callback.relocated inst f) false with onclick := none }
      | none => l3
    ({ state := state, inst := inst, bound := true }, l4)

/-- Models `FastClick.prototype.destroy`. -/
def destroy (p : Platform) (h : Handle) (layer : Layer) : Layer :=
  let l1 : Layer :=
    if p.deviceIsAndroid then
      ((layer.removeEventListener "mouseover" (h.method Method.onMouse) true
        ).removeEventListener "mousedown" (h.method Method.onMouse) true
        ).removeEventListener "mouseup" (h.method Method.onMouse) true
    else layer
  ((((l1.removeEventListener "click" (h.method Method.onClick) true
    ).removeEventListener "touchstart" (h.method Method.onTouchStart) false
    ).removeEventListener "touchmove" (h.method Method.onTouchMove) false
    ).removeEventListener "touchend" (h.method Method.onTouchEnd) false
    ).removeEventListener "touchcancel" (h.method Method.onTouchCancel) false

/-- Whether a function belongs to arbiter `inst`: one of its bound methods, a prototype
method, the relocated `onclick` function, or the `hijacked` companion of one of these. -/
def Callback.ownedBy (inst : Nat) : Callback → Bool
  | Callback.bound i _ => i == inst
  | Callback.proto _ => true
  | Callback.relocated i _ => i == inst
  | Callback.hijacked c => Callback.ownedBy inst c
  | Callback.page _ => false

/-- A layer on which nothing of arbiter `inst` is registered yet: its functions are new
objects. -/
def Layer.freshFor (layer : Layer) (inst : Nat) : Prop :=
  (∀ l ∈ layer.listeners, Callback.ownedBy inst l.callback = false) ∧
  (∀ c ∈ layer.hijackedCallbacks, Callback.ownedBy inst c = false)

/-! ## Platform detection: the device flags and `notNeeded` -/

/-- The scan of `indexOf`: `i` is the position of the head of the list. -/
def indexOfAux (sub : List Char) : List Char → Nat → Int
  | [], i => if sub = [] then (i : Int) else -1
  | c :: cs, i => if (stripWord sub (c :: cs)).isSome then (i : Int) else indexOfAux sub cs (i + 1)

/-- Models `s.indexOf(sub)`: the position of the first occurrence, or -1. -/
def indexOf (s sub : String) : Int :=
  indexOfAux sub.data s.data 0

/-- The number written by a run of decimal digits; the empty run gives 0, as the conversion
of the empty string to a number does. -/
def digitsValue (ds : List Char) : Nat :=
  ds.foldl (fun n c => 10 * n + (c.toNat - 48)) 0

/-- Models `+(/name([0-9]+)/.exec(s) || [,0])[1]`: the number after the first occurrence of
`name` that is followed by a digit, or 0 when there is none. -/
def versionAfter (name : List Char) : List Char → Nat
  | [] => 0
  | c :: cs =>
    match stripWord name (c :: cs) with
    | some rest =>
      if rest.takeWhile Char.isDigit ≠ [] then digitsValue (rest.takeWhile Char.isDigit)
      else versionAfter name cs
    | none => versionAfter name cs

/-- Models `s.match(/Version\/([0-9]*)\.([0-9]*)/)`: the two captured digit runs of the first
match, or `none` for `null`. -/
def versionMatch : List Char → Option (List Char × List Char)
  | [] => none
  | c :: cs =>
    match stripWord "Version/".data (c :: cs) with
    | some rest =>
      match rest.dropWhile Char.isDigit with
      | '.' :: more => some (rest.takeWhile Char.isDigit, more.takeWhile Char.isDigit)
      | _ => versionMatch cs
    | none => versionMatch cs

/-- Whether `name` occurs somewhere followed by a digit: models `/name\d/.test(s)`. -/
def occursBeforeDigit (name : List Char) : List Char → Bool
  | [] => false
  | c :: cs =>
    (match stripWord name (c :: cs) with
      | some (d :: _) => d.isDigit
      | _ => false) || occursBeforeDigit name cs

/-- The module-level device flags, computed from `navigator.userAgent`. -/
def detect (userAgent : String) : Platform :=
  let windowsPhone : Bool := decide (indexOf userAgent "Windows Phone" ≥ 0)
  let isIOS : Bool :=
    (decide (indexOf userAgent "iPad" ≥ 0) || decide (indexOf userAgent "iPhone" ≥ 0) ||
      decide (indexOf userAgent "iPod" ≥ 0)) && !windowsPhone
  { deviceIsWindowsPhone := windowsPhone
    deviceIsAndroid := decide (indexOf userAgent "Android" > 0) && !windowsPhone
    deviceIsIOS := isIOS
    deviceIsIOS4 := isIOS && occursBeforeDigit "OS 4_".data userAgent.data
    deviceIsIOSWithBadTarget :=
      isIOS && (occursBeforeDigit "OS 6_".data userAgent.data ||
        occursBeforeDigit "OS 7_".data userAgent.data)
    deviceIsBlackBerry10 := decide (indexOf userAgent "BB10" > 0) }

/-- What `notNeeded` reads from `window`, `navigator` and `document`. -/
structure Browser where
  /-- Whether `typeof window.ontouchstart` is not `'undefined'`. -/
  touchCapable : Bool
  userAgent : String
  /-- The `content` of the element `meta[name=viewport]`, `none` when there is no such
  element. -/
  metaViewport : Option String
  /-- Holds `document.documentElement.scrollWidth`. -/
  scrollWidth : Int
  /-- Holds `window.outerWidth`. -/
  outerWidth : Int
  deriving DecidableEq

/-- The two properties of `layer.style` that `notNeeded` reads; the empty string when
unset. -/
structure Style where
  msTouchAction : String
  touchAction : String
  deriving DecidableEq

/-- The end of `notNeeded`, from the `msTouchAction` test on. -/
def notNeededStyle (b : Browser) (style : Style) : Bool :=
  if style.msTouchAction = "none" ∨ style.touchAction = "manipulation" then true
  else if decide (versionAfter "Firefox/".data b.userAgent.data ≥ 27) &&
      (match b.metaViewport with
        | some content =>
          decide (indexOf content "user-scalable=no" ≠ -1) ||
            decide (b.scrollWidth ≤ b.outerWidth)
        | none => false) then true
  else if style.touchAction = "none" ∨ style.touchAction = "manipulation" then true
  else false

/-- The part of `notNeeded` from `if (deviceIsBlackBerry10)` on. Reading `[1]` of a `null`
match is a `TypeError`. -/
def notNeededBlackBerry (p : Platform) (b : Browser) (style : Style) : Completion :=
  if p.deviceIsBlackBerry10 then
    match versionMatch b.userAgent.data with
    | none => Completion.typeError
    | some (major, minor) =>
      if digitsValue major ≥ 10 ∧ digitsValue minor ≥ 3 then
        match b.metaViewport with
        | some content =>
          if indexOf content "user-scalable=no" ≠ -1 then Completion.returned true
          else if b.scrollWidth ≤ b.outerWidth then Completion.returned true
          else Completion.returned (notNeededStyle b style)
        | none => Completion.returned (notNeededStyle b style)
      else Completion.returned (notNeededStyle b style)
  else Completion.returned (notNeededStyle b style)

/-- Models `FastClick.notNeeded`; `style` is `layer.style`. -/
def notNeeded (p : Platform) (b : Browser) (style : Style) : Completion :=
  if !b.touchCapable then Completion.returned true
  else if versionAfter "Chrome/".data b.userAgent.data ≠ 0 then
    if p.deviceIsAndroid then
      match b.metaViewport with
      | some content =>
        if indexOf content "user-scalable=no" ≠ -1 then Completion.returned true
        else if versionAfter "Chrome/".data b.userAgent.data > 31 ∧
            b.scrollWidth ≤ b.outerWidth then Completion.returned true
        else notNeededBlackBerry p b style
      | none => notNeededBlackBerry p b style
    else Completion.returned true
  else notNeededBlackBerry p b style

/-- Models `FastClick.attach(layer, options)`, that is `new FastClick(layer, options)`, with
its call of `notNeeded`; `none` when that call stops with a `TypeError`, which the
constructor does not catch. -/
def attachIn (p : Platform) (b : Browser) (style : Style) (hasStopImmediatePropagation : Bool)
    (inst : Nat) (layerId : NodeId) (layer : Layer) (options : Option Options) :
    Option (Handle × Layer) :=
  match notNeeded p b style with
  | Completion.returned v =>
    some (attach p hasStopImmediatePropagation v inst layerId layer options)
  | _ => none

/-! ## Concrete pages and events used in the scenarios -/

namespace Scenario

/-- A plain `div` without a parent. -/
def div : Node :=
  { nodeType := 1, tagName := "DIV", type := "", disabled := false, readOnly := false,
    className := "", parentNode := none, ancestors := [], scrollHeight := 0, offsetHeight := 0,
    scrollTop := 0, hasSetSelectionRange := false, valueLength := 0, control := none,
    htmlFor := "", labellable := none, fastClickScrollParent := none,
    fastClickLastScrollTop := none }

/-- A text input. -/
def textInput : Node :=
  { div with tagName := "INPUT", type := "text", hasSetSelectionRange := true }

/-- A page on which node 5 is a text input and every other node a plain `div`. -/
def page : Dom :=
  { node := fun i => if i = 5 then textInput else div
    activeElement := none, elementFromPoint := fun _ _ => none
    pageXOffset := 0, pageYOffset := 0, getElementById := fun _ => none
    rangeCount := 0, isCollapsed := true, framed := false }

/-- A touch-capable platform that is neither Android nor iOS. -/
def other : Platform :=
  { deviceIsAndroid := false, deviceIsIOS := false, deviceIsIOS4 := false,
    deviceIsIOSWithBadTarget := false, deviceIsBlackBerry10 := false,
    deviceIsWindowsPhone := false }

/-- A touch point at page, screen and client position `(x, y)`. -/
def touchAt (x y : Int) : Touch :=
  { identifier := 1, pageX := x, pageY := y, screenX := x, screenY := y,
    clientX := x, clientY := y }

/-- A single-finger touch event on node `target` at time `t` and position `(x, y)`. -/
def touch (target : NodeId) (t x y : Int) : TouchEvent :=
  { target := target, timeStamp := t, targetTouches := [touchAt x y],
    changedTouches := [touchAt x y] }

/-- A `touchstart` on node `target` reporting two fingers on it. -/
def twoFingers (target : NodeId) (t : Int) : TouchEvent :=
  { target := target, timeStamp := t, targetTouches := [touchAt 100 100, touchAt 140 100],
    changedTouches := [touchAt 140 100] }

/-- A browser-generated click on node `target`: cancelable, not forwarded. -/
def nativeClick (target : NodeId) : MouseEvent :=
  { target := target, forwardedTouchEvent := false, cancelable := true, detail := 1,
    hasStopImmediatePropagation := true }

/-- A freshly constructed arbiter with the default options. -/
def fresh : State := initialState 0 none

/-- The arbiter after a `touchstart` on node `target` at time `t`, position `(100, 100)`. -/
def started (s : State) (target : NodeId) (t : Int) : State :=
  (onTouchStart other page s (touch target t 100 100)).state

/-- The outcome of a whole tap on node `target`: `touchstart` at `t0`, `touchend` at `t1`,
both at `(100, 100)`. -/
def tap (s : State) (target : NodeId) (t0 t1 : Int) : Outcome :=
  onTouchEnd other page (started s target t0) (touch target t1 100 100)

/-- A label whose `for` attribute names the element with id `email`. -/
def emailLabel : Node :=
  { div with tagName := "LABEL", htmlFor := "email" }

/-- An email input. -/
def emailInput : Node :=
  { div with tagName := "INPUT", type := "email", hasSetSelectionRange := true }

/-- A label without a control, carrying the class `needsfocus`. -/
def focusLabel : Node :=
  { div with tagName := "LABEL", className := "needsfocus" }

/-- A `video` element. -/
def video : Node :=
  { div with tagName := "VIDEO" }

/-- A container whose content overflows: `scrollHeight > offsetHeight`. -/
def scroller : Node :=
  { div with scrollHeight := 500, offsetHeight := 100 }

/-- A plain `div` inside the container, node 3. -/
def scrolledItem : Node :=
  { div with parentNode := some 3, ancestors := [3] }

/-- A page with a scrolling container (node 3) holding node 8, a label (node 11) for the
email input (node 12), a label of class `needsfocus` (node 13) and a video (node 14); every
other node is a plain `div`. -/
def form : Dom :=
  { node := fun i =>
      if i = 3 then scroller else if i = 8 then scrolledItem
      else if i = 11 then emailLabel else if i = 12 then emailInput
      else if i = 13 then focusLabel else if i = 14 then video else div
    activeElement := none, elementFromPoint := fun _ _ => none
    pageXOffset := 0, pageYOffset := 0
    getElementById := fun id => if id = "email" then some 12 else none
    rangeCount := 0, isCollapsed := true, framed := false }

/-- The page `form` when hit-testing at any point finds the video. -/
def formOverVideo : Dom :=
  { form with elementFromPoint := fun _ _ => some 14 }

/-- The page `dom` after node `i` has been scrolled to offset `top`. -/
def scrollTo (dom : Dom) (i : NodeId) (top : Int) : Dom :=
  dom.setNode i { dom.node i with scrollTop := top }

/-- An iOS platform other than iOS 4, 6 and 7. -/
def ios : Platform :=
  { other with deviceIsIOS := true }

/-- An iOS 6 or 7 platform, where the target is re-derived by hit-testing. -/
def ios6 : Platform :=
  { other with deviceIsIOS := true, deviceIsIOSWithBadTarget := true }

/-- Android. -/
def android : Platform :=
  { other with deviceIsAndroid := true }

/-- A layer with one listener of the page and an `onclick` handler. -/
def layerWithOnclick : Layer :=
  { listeners := [{ type := "click", callback := Callback.page 1, capture := false }]
    onclick := some 2, hijacking := false, hijackedCallbacks := [] }

/-- A layer with one listener of the page and no `onclick` handler. -/
def plainLayer : Layer :=
  { listeners := [{ type := "click", callback := Callback.page 1, capture := false }]
    onclick := none, hijacking := false, hijackedCallbacks := [] }

/-- A `touchstart` at time `t`, position `(100, 100)`, on node `target` of page `dom`, on a
fresh arbiter. -/
def startedOn (p : Platform) (dom : Dom) (target : NodeId) (t : Int) : Outcome :=
  onTouchStart p dom fresh (touch target t 100 100)

/-- A whole tap on node `target` of page `dom` on a fresh arbiter: `touchstart` at `t0`,
`touchend` at `t1`, both at `(100, 100)`. -/
def tapOn (p : Platform) (dom : Dom) (target : NodeId) (t0 t1 : Int) : Outcome :=
  onTouchEnd p dom (startedOn p dom target t0).state (touch target t1 100 100)

/-- A BlackBerry 10 user agent without a `Version/` token. -/
def blackBerryNoVersion : String :=
  "Mozilla/5.0 (BB10; Touch) AppleWebKit/537.10+ (KHTML, like Gecko) Mobile Safari/537.10+"

/-- A BlackBerry 10 user agent announcing version 11.0. -/
def blackBerry11 : String :=
  "Mozilla/5.0 (BB10; Touch) AppleWebKit/537.35+ (KHTML, like Gecko) Version/11.0.0.1 Mobile Safari/537.35+"

/-- A BlackBerry 10 user agent announcing version 10.3. -/
def blackBerry103 : String :=
  "Mozilla/5.0 (BB10; Touch) AppleWebKit/537.35+ (KHTML, like Gecko) Version/10.3.1.2576 Mobile Safari/537.35+"

/-- A touch-capable browser with user agent `ua` whose page has a viewport meta tag with
`user-scalable=no` and is wider than the window. -/
def fixedViewport (ua : String) : Browser :=
  { touchCapable := true, userAgent := ua
    metaViewport := some "width=device-width, user-scalable=no"
    scrollWidth := 1200, outerWidth := 800 }

/-- A layer style without touch-action values. -/
def noTouchAction : Style :=
  { msTouchAction := "", touchAction := "" }

/-- The page `page` while some text is selected. -/
def pageWithSelection : Dom :=
  { page with rangeCount := 1, isCollapsed := false }

/-- A layer style with `touch-action: none`. -/
def touchActionNone : Style :=
  { msTouchAction := "", touchAction := "none" }

/-- A touch-capable browser with a user agent naming no known browser, on a zoomable page. -/
def plainBrowser : Browser :=
  { touchCapable := true, userAgent := "Mozilla/5.0 (Mobile)"
    metaViewport := none, scrollWidth := 1200, outerWidth := 800 }

/-- An enabled `select`. -/
def selectBox : Node :=
  { div with tagName := "SELECT", type := "select-one" }

/-- A label whose `control` property names node 17. -/
def offLabel : Node :=
  { div with tagName := "LABEL", control := some (some 17) }

/-- A disabled text input. -/
def disabledInput : Node :=
  { div with tagName := "INPUT", type := "text", disabled := true }

/-- The page `form` with a `select` (node 15) and a label (node 16) for a disabled input
(node 17) added. -/
def controls : Dom :=
  { form with
    node := fun i =>
      if i = 15 then selectBox else if i = 16 then offLabel
      else if i = 17 then disabledInput else form.node i }

/-- The page `controls` when hit-testing at any point finds the label, node 16. -/
def controlsOverLabel : Dom :=
  { controls with elementFromPoint := fun _ _ => some 16 }

/-- The page `form` when hit-testing at any point finds the plain `div`, node 7. -/
def formOverDiv : Dom :=
  { form with elementFromPoint := fun _ _ => some 7 }

end Scenario

/-! ## The invariant of the data model -/

/-- A gesture that is being tracked has a target element. -/
def TrackedHasTarget (s : State) : Prop :=
  s.trackingClick = true → s.targetElement ≠ none

end FastClick

/-! # Theorems -/

namespace FastClick

open Scenario

/-! ## Shared lemmas -/

theorem dispatched_append (a b : List Effect) :
    dispatched (a ++ b) = dispatched a ++ dispatched b := by
  induction a with
  | nil => rfl
  | cons e rest ih => cases e <;> simp [dispatched, ih]

/-- With a first changed touch, `sendClick` runs to its end and dispatches one event. -/
theorem sendClick_of_touch (p : Platform) (dom : Dom) (t : NodeId) (event : TouchEvent)
    (touch : Touch) (rest : List Touch) (h : event.changedTouches = touch :: rest) :
    (sendClick p dom t event).2 = true ∧
    dispatched (sendClick p dom t event).1 =
      [{ type := determineEventType p (dom.node t), target := t, detail := 1,
         screenX := touch.screenX, screenY := touch.screenY,
         clientX := touch.clientX, clientY := touch.clientY,
         forwardedTouchEvent := true }] := by
  unfold sendClick
  rw [h]
  cases hact : dom.activeElement with
  | none => simp [dispatched]
  | some a =>
    by_cases ha : a = t <;> simp [dispatched, ha]

theorem elapsedLess_false (t : Int) (last : Option Int) (delay : Int)
    (h : ∀ l, last = some l → ¬ t - l < delay) : elapsedLess t last delay = false := by
  unfold elapsedLess
  cases hl : last with
  | none => rfl
  | some l => simpa using h l hl

theorem onTouchEnd_idle (p : Platform) (dom : Dom) (s : State) (event : TouchEvent)
    (h : s.trackingClick = false) : onTouchEnd p dom s event = pass s dom true := by
  unfold onTouchEnd
  simp [h]

theorem onTouchEnd_commit (p : Platform) (dom : Dom) (s : State) (event : TouchEvent)
    (htrack : s.trackingClick = true)
    (hdelay : elapsedLess event.timeStamp s.lastClickTime s.tapDelay = false)
    (htimeout : event.timeStamp - s.trackingClickStart ≤ s.tapTimeout) :
    onTouchEnd p dom s event = touchEndCommit p dom s event := by
  unfold onTouchEnd
  simp [htrack, hdelay, not_lt.mpr htimeout]

/-- The outcome of the last branch of a committed tap: `preventDefault`, then `sendClick`. -/
theorem onTouchEnd_forward (p : Platform) (dom dom1 : Dom) (s : State) (event : TouchEvent)
    (r : NodeId)
    (htrack : s.trackingClick = true)
    (hdelay : ∀ last, s.lastClickTime = some last → ¬ event.timeStamp - last < s.tapDelay)
    (htimeout : event.timeStamp - s.trackingClickStart ≤ s.tapTimeout)
    (hresolved : resolveTarget p dom s event = some (some r, dom1))
    (hlabel : toLowerCase (dom1.node r).tagName ≠ "label")
    (hfocus : needsFocus p (dom1.node r) = false)
    (hclick : needsClick p (dom1.node r) = false)
    (hscroll : scrollParentMoved dom1 r = false) :
    (onTouchEnd p dom s event).state = committed s event ∧
    (onTouchEnd p dom s event).effects =
      Effect.preventDefault :: (sendClick p dom1 r event).1 := by
  have hd := elapsedLess_false _ _ _ hdelay
  rw [onTouchEnd_commit p dom s event htrack hd htimeout, touchEndCommit, hresolved]
  simp only [touchEndDecide, hlabel, hfocus, touchEndForward, hscroll, hclick]
  simp

theorem touchEndForward_state (p : Platform) (dom : Dom) (s : State) (event : TouchEvent)
    (t : NodeId) (fx : List Effect) : (touchEndForward p dom s event t fx).state = s := by
  unfold touchEndForward
  split
  · rfl
  · split <;> rfl

theorem touchEndDecide_tracking (p : Platform) (dom : Dom) (s : State) (event : TouchEvent)
    (start : Int) (t : NodeId) :
    (touchEndDecide p dom s event start t).state.trackingClick = s.trackingClick := by
  unfold touchEndDecide
  simp only
  split
  · split
    · split
      · rfl
      · rw [touchEndForward_state]
    · rw [touchEndForward_state]
  · split
    · split
      · rfl
      · split
        · rfl
        · split <;> rfl
    · rw [touchEndForward_state]

theorem touchEndCommit_tracking (p : Platform) (dom : Dom) (s : State) (event : TouchEvent) :
    (touchEndCommit p dom s event).state.trackingClick = false := by
  unfold touchEndCommit
  split
  · rfl
  · rfl
  · rw [touchEndDecide_tracking]; rfl

theorem touchStartTrack_target (s : State) (dom : Dom) (event : TouchEvent)
    (targetElement : Option NodeId) :
    (touchStartTrack s dom event targetElement).state.targetElement = targetElement := by
  unfold touchStartTrack
  cases event.targetTouches.head? <;> rfl

theorem onMouse_state (p : Platform) (dom : Dom) (s : State) (event : MouseEvent) :
    (onMouse p dom s event).state = s := by
  unfold onMouse
  split
  · rfl
  · split
    · rfl
    · split
      · rfl
      · split <;> rfl

/-- An event carrying the `forwardedTouchEvent` marker passes `onClick` untouched
once tracking is over. -/
theorem onClick_forwarded (p : Platform) (dom : Dom) (s : State) (click : MouseEvent)
    (htrack : s.trackingClick = false) (hfwd : click.forwardedTouchEvent = true) :
    onClick p dom s click = pass s dom true := by
  unfold onClick
  simp only [htrack, Bool.false_eq_true, if_false]
  split
  · rfl
  · unfold onMouse
    cases s.targetElement <;> simp [hfwd, pass]

/-- The rejecting path of `onClick`. -/
theorem onClick_suppress (p : Platform) (dom : Dom) (s : State) (click : MouseEvent)
    (t : NodeId)
    (htrack : s.trackingClick = false) (htarget : s.targetElement = some t)
    (hcancel : click.cancelable = true) (hfwd : click.forwardedTouchEvent = false)
    (hsubmit : ¬ ((dom.node click.target).type = "submit" ∧ click.detail = 0))
    (hneeds : needsClick p (dom.node t) = false ∨ s.cancelNextClick = some true) :
    (onClick p dom s click).result = Completion.returned false ∧
    (onClick p dom s click).effects = suppression click ∧
    (onClick p dom s click).state = { s with targetElement := none } := by
  have hs : ((dom.node click.target).type == "submit" && click.detail == 0) = false := by
    rw [Bool.eq_false_iff]
    intro h
    apply hsubmit
    simpa using h
  have hn : (!needsClick p (dom.node t) || s.cancelNextClick == some true) = true := by
    rcases hneeds with h | h <;> simp [h]
  unfold onClick
  simp only [htrack, Bool.false_eq_true, if_false, hs]
  unfold onMouse
  simp [htarget, hfwd, hcancel, hn, suppression, htrack]

theorem onTouchStart_inv (p : Platform) (dom : Dom) (s : State) (event : TouchEvent)
    (hres : getTargetElementFromEventTarget dom event.target ≠ none)
    (h : TrackedHasTarget s) : TrackedHasTarget (onTouchStart p dom s event).state := by
  have htrack : ∀ (s0 : State) (dom0 : Dom),
      TrackedHasTarget (touchStartTrack s0 dom0 event
        (getTargetElementFromEventTarget dom event.target)).state := by
    intro s0 dom0 _
    rw [touchStartTrack_target]
    exact hres
  unfold onTouchStart
  simp only
  split
  · exact h
  · split
    · split
      · exact h
      · split
        · split
          · exact h
          · split
            · exact h
            · split
              · exact h
              · exact htrack _ _
        · exact htrack _ _
    · exact htrack _ _

theorem onTouchMove_inv (dom : Dom) (s : State) (event : TouchEvent)
    (h : TrackedHasTarget s) : TrackedHasTarget (onTouchMove dom s event).state := by
  unfold onTouchMove
  split
  · exact h
  · split
    · intro hc; exact absurd hc (by simp [pass])
    · split
      · exact h
      · intro hc; exact absurd hc (by simp [pass])
      · exact h

theorem onTouchEnd_inv (p : Platform) (dom : Dom) (s : State) (event : TouchEvent)
    (h : TrackedHasTarget s) : TrackedHasTarget (onTouchEnd p dom s event).state := by
  unfold onTouchEnd
  split
  · exact h
  · split
    · exact h
    · split
      · exact h
      · intro hc
        rw [touchEndCommit_tracking] at hc
        exact absurd hc (by decide)

theorem onClick_inv (p : Platform) (dom : Dom) (s : State) (event : MouseEvent)
    (h : TrackedHasTarget s) : TrackedHasTarget (onClick p dom s event).state := by
  have hm := onMouse_state p dom s event
  unfold onClick
  split
  · intro hc; exact absurd hc (by simp [pass])
  · rename_i hidle
    split
    · exact h
    · simp only
      split
      · intro hc
        rw [hm] at hc
        exact absurd hc hidle
      · rw [hm]; exact h

theorem focused_append (a b : List Effect) :
    focused (a ++ b) = focused a ++ focused b := by
  induction a with
  | nil => rfl
  | cons e rest ih => cases e <;> simp [focused, ih]

/-- What `focus` does: one focusing call on its argument, nothing else. -/
theorem focus_calls (p : Platform) (dom : Dom) (t : NodeId) :
    focused (focus p dom t) = [t] ∧ dispatched (focus p dom t) = [] ∧
    Effect.preventDefault ∉ focus p dom t := by
  unfold focus
  simp only
  split <;> simp [focused, dispatched]

/-- The handler `sendClick` neither focuses a node nor cancels the event. -/
theorem sendClick_quiet (p : Platform) (dom : Dom) (t : NodeId) (event : TouchEvent) :
    focused (sendClick p dom t event).1 = [] ∧
    Effect.preventDefault ∉ (sendClick p dom t event).1 := by
  unfold sendClick
  cases hact : dom.activeElement with
  | none => cases event.changedTouches.head? <;> simp [focused]
  | some a =>
    by_cases ha : a = t <;> cases event.changedTouches.head? <;> simp [focused, ha]

/-- The commit path of `onTouchEnd` on a resolved target. -/
theorem onTouchEnd_decide (p : Platform) (dom dom1 : Dom) (s : State) (event : TouchEvent)
    (r : NodeId)
    (htrack : s.trackingClick = true)
    (hdelay : ∀ last, s.lastClickTime = some last → ¬ event.timeStamp - last < s.tapDelay)
    (htimeout : event.timeStamp - s.trackingClickStart ≤ s.tapTimeout)
    (hresolved : resolveTarget p dom s event = some (some r, dom1)) :
    onTouchEnd p dom s event =
      touchEndDecide p dom1 (committed s event) event s.trackingClickStart r := by
  have hd := elapsedLess_false _ _ _ hdelay
  rw [onTouchEnd_commit p dom s event htrack hd htimeout, touchEndCommit, hresolved]

/-- The scroll parent that `recordScrollParent` leaves on the target carries its current
scroll offset. -/
theorem recordScrollParent_records (dom : Dom) (t sp : NodeId) (old found : Option NodeId)
    (hold : (dom.node t).fastClickScrollParent = old)
    (h : ((recordScrollParent dom t old found).node t).fastClickScrollParent = some sp) :
    ((recordScrollParent dom t old found).node sp).fastClickLastScrollTop =
      some (dom.node sp).scrollTop := by
  unfold recordScrollParent at h ⊢
  cases found with
  | some e =>
    simp only [Dom.setNode] at h ⊢
    by_cases hte : t = e
    · subst hte
      simp only [if_true] at h
      have : t = sp := by simpa using h
      subst this
      simp
    · simp only [hte, if_false, if_true] at h
      have : e = sp := by simpa using h
      subst this
      have hne : ¬ e = t := fun h => hte h.symm
      simp [hne]
  | none =>
    cases old with
    | none =>
      simp only at h
      rw [hold] at h
      exact absurd h (by simp)
    | some o =>
      simp only [Dom.setNode] at h ⊢
      by_cases hto : t = o
      · subst hto
        simp only [if_true] at h
        have : t = sp := by simpa [hold] using h
        subst this
        simp
      · simp only [hto, if_false] at h
        have : o = sp := by rw [hold] at h; simpa using h
        subst this
        simp

/-- After `updateScrollParent`, the scroll parent recorded on the target carries the
scroll offset it had when the function ran. -/
theorem updateScrollParent_records (dom : Dom) (t sp : NodeId)
    (h : ((updateScrollParent dom t).node t).fastClickScrollParent = some sp) :
    ((updateScrollParent dom t).node sp).fastClickLastScrollTop = some (dom.node sp).scrollTop :=
  recordScrollParent_records dom t sp _ _ rfl h

/-- On iOS other than iOS 4, a single-touch `touchstart` that passes the platform checks
runs `updateScrollParent` on the target and starts tracking it. -/
theorem onTouchStart_ios (p : Platform) (dom : Dom) (s : State) (event : TouchEvent)
    (touch : Touch) (t : NodeId)
    (hios : p.deviceIsIOS = true) (h4 : p.deviceIsIOS4 = false)
    (hone : event.targetTouches = [touch])
    (hselection : ¬ (dom.rangeCount ≠ 0 ∧ dom.isCollapsed = false))
    (hrepeat : ¬ (touch.identifier ≠ 0 ∧ touch.identifier = s.lastTouchIdentifier))
    (htarget : getTargetElementFromEventTarget dom event.target = some t) :
    (onTouchStart p dom s event).dom = updateScrollParent dom t ∧
    (onTouchStart p dom s event).state.targetElement = some t ∧
    (onTouchStart p dom s event).state.trackingClick = true := by
  have hlen : ¬ event.targetTouches.length > 1 := by simp [hone]
  have hsel : (dom.rangeCount != 0 && !dom.isCollapsed) = false := by
    rw [Bool.eq_false_iff]
    intro h
    apply hselection
    simpa using h
  have hrep : (truthy touch.identifier && touch.identifier == s.lastTouchIdentifier) = false := by
    rw [Bool.eq_false_iff]
    intro h
    apply hrepeat
    simpa [truthy] using h
  have hout : onTouchStart p dom s event =
      touchStartTrack { s with lastTouchIdentifier := touch.identifier }
        (updateScrollParent dom t) event (some t) := by
    unfold onTouchStart
    simp [hios, hsel, h4, hone, hrep, htarget]
  rw [hout]
  unfold touchStartTrack
  simp [hone]

/-- What `resolveTarget` leaves on the resolved target: the scroll parent recorded on the
tracked target, with that parent's offsets untouched. -/
theorem resolveTarget_scrollParent (p : Platform) (dom dom1 : Dom) (s : State)
    (event : TouchEvent) (t r sp : NodeId)
    (htarget : s.targetElement = some t)
    (hparent : (dom.node t).fastClickScrollParent = some sp)
    (hresolved : resolveTarget p dom s event = some (some r, dom1)) :
    (dom1.node r).fastClickScrollParent = some sp ∧
    (dom1.node sp).fastClickLastScrollTop = (dom.node sp).fastClickLastScrollTop ∧
    (dom1.node sp).scrollTop = (dom.node sp).scrollTop := by
  unfold resolveTarget at hresolved
  cases hbad : p.deviceIsIOSWithBadTarget with
  | false =>
    simp only [hbad, Bool.false_eq_true, if_false, htarget, Option.some.injEq,
      Prod.mk.injEq] at hresolved
    obtain ⟨hr, hd⟩ := hresolved
    subst hr; subst hd
    exact ⟨hparent, rfl, rfl⟩
  | true =>
    simp only [hbad, if_true, htarget] at hresolved
    cases hch : event.changedTouches.head? with
    | none => simp [hch] at hresolved
    | some touch =>
      simp only [hch] at hresolved
      cases hhit : dom.elementFromPoint (touch.pageX - dom.pageXOffset)
          (touch.pageY - dom.pageYOffset) with
      | none =>
        simp only [hhit, Option.some.injEq, Prod.mk.injEq] at hresolved
        obtain ⟨hr, hd⟩ := hresolved
        subst hr; subst hd
        by_cases hsp : sp = t <;> simp [Dom.setNode, hparent, hsp]
      | some e =>
        simp only [hhit, Option.some.injEq, Prod.mk.injEq] at hresolved
        obtain ⟨hr, hd⟩ := hresolved
        subst hr; subst hd
        by_cases hsp : sp = e <;> simp [Dom.setNode, hparent, hsp]

theorem fresh_not_mem (layer : Layer) (inst : Nat) (hfresh : layer.freshFor inst)
    (t : String) (c : Callback) (cap : Bool) (hc : Callback.ownedBy inst c = true) :
    ({ type := t, callback := c, capture := cap } : Listener) ∉ layer.listeners := by
  intro hmem
  have := hfresh.1 _ hmem
  simp [hc] at this

theorem fresh_not_hijacked (layer : Layer) (inst : Nat) (hfresh : layer.freshFor inst)
    (c : Callback) (hc : Callback.ownedBy inst c = true) :
    c ∉ layer.hijackedCallbacks := by
  intro hmem
  have := hfresh.2 _ hmem
  simp [hc] at this

theorem fresh_filter (layer : Layer) (inst : Nat) (hfresh : layer.freshFor inst)
    (t : String) (c : Callback) (cap : Bool) (hc : Callback.ownedBy inst c = true) :
    layer.listeners.filter
      (fun x => x != ({ type := t, callback := c, capture := cap } : Listener)) =
      layer.listeners := by
  rw [List.filter_eq_self]
  intro x hx
  have hne : x ≠ { type := t, callback := c, capture := cap } := by
    intro h
    subst h
    exact fresh_not_mem layer inst hfresh t c cap hc hx
  simpa using hne

/-! ## Committed taps: the forwarded click (C1, C2) -/

/-- Claim C1. While a gesture is tracked, a `touchend` that is not within `tapDelay` of
`lastClickTime` and at most `tapTimeout` after `trackingClickStart`, whose resolved target is
not a label, needs neither focus nor a native click and has no scroll parent whose offset
changed, makes `onTouchEnd` call `preventDefault` and dispatch exactly one synthetic event on
that target: of type `click` (`mousedown` on Android for a `select`), with the screen and
client coordinates of the first changed touch and the `forwardedTouchEvent` marker. -/
theorem onTouchEnd_forwards_one_click (p : Platform) (dom dom1 : Dom) (s : State)
    (event : TouchEvent) (t : NodeId) (touch : Touch) (rest : List Touch)
    (htrack : s.trackingClick = true)
    (hdelay : ∀ last, s.lastClickTime = some last → ¬ event.timeStamp - last < s.tapDelay)
    (htimeout : event.timeStamp - s.trackingClickStart ≤ s.tapTimeout)
    (hresolved : resolveTarget p dom s event = some (some t, dom1))
    (hlabel : toLowerCase (dom1.node t).tagName ≠ "label")
    (hfocus : needsFocus p (dom1.node t) = false)
    (hclick : needsClick p (dom1.node t) = false)
    (hscroll : scrollParentMoved dom1 t = false)
    (htouch : event.changedTouches = touch :: rest) :
    Effect.preventDefault ∈ (onTouchEnd p dom s event).effects ∧
    dispatched (onTouchEnd p dom s event).effects =
      [{ type := if p.deviceIsAndroid = true ∧ toLowerCase (dom1.node t).tagName = "select"
                 then "mousedown" else "click"
         target := t, detail := 1
         screenX := touch.screenX, screenY := touch.screenY
         clientX := touch.clientX, clientY := touch.clientY
         forwardedTouchEvent := true }] := by
  obtain ⟨-, heff⟩ :=
    onTouchEnd_forward p dom dom1 s event t htrack hdelay htimeout hresolved hlabel hfocus
      hclick hscroll
  obtain ⟨-, hdisp⟩ := sendClick_of_touch p dom1 t event touch rest htouch
  rw [heff]
  refine ⟨List.mem_cons_self _ _, ?_⟩
  simp [dispatched, hdisp, determineEventType]

/-- Scenario A for claim C1: on a fresh arbiter, `touchstart` at `(100, 100)` at `t = 0` and
`touchend` at `(100, 100)` at `t = 150` give exactly one synthetic click at `(100, 100)`. -/
theorem scenarioA_one_click :
    (started fresh 7 0).trackingClick = true ∧
    (started fresh 7 0).lastClickTime = none ∧
    (150 : Int) - (started fresh 7 0).trackingClickStart ≤ (started fresh 7 0).tapTimeout ∧
    Effect.preventDefault ∈ (tap fresh 7 0 150).effects ∧
    dispatched (tap fresh 7 0 150).effects =
      [{ type := "click", target := 7, detail := 1, screenX := 100, screenY := 100,
         clientX := 100, clientY := 100, forwardedTouchEvent := true }] :=
  ⟨by decide, by decide, by decide,
   onTouchEnd_forwards_one_click other page page (started fresh 7 0) (touch 7 150 100 100) 7
     (touchAt 100 100) [] (by decide)
     (by intro last h
         exact absurd h (by simp [show (started fresh 7 0).lastClickTime = none by decide]))
     (by decide) rfl (by decide) (by decide) (by decide) (by decide) rfl⟩

/-- The helper `sendClick` dispatches at most one event, and that event carries the
`forwardedTouchEvent` marker. -/
theorem sendClick_marked (p : Platform) (dom : Dom) (t : NodeId) (event : TouchEvent) :
    dispatched (sendClick p dom t event).1 = [] ∨
    ∃ ev, dispatched (sendClick p dom t event).1 = [ev] ∧ ev.forwardedTouchEvent = true := by
  unfold sendClick
  cases hact : dom.activeElement with
  | none =>
    cases event.changedTouches.head? <;> simp [dispatched]
  | some a =>
    by_cases ha : a = t <;> cases event.changedTouches.head? <;> simp [dispatched, ha]

theorem touchEndForward_marked (p : Platform) (dom : Dom) (s : State) (event : TouchEvent)
    (t : NodeId) (fx : List Effect) (hfd : dispatched fx = []) :
    dispatched (touchEndForward p dom s event t fx).effects = [] ∨
    ∃ ev, dispatched (touchEndForward p dom s event t fx).effects = [ev] ∧
      ev.forwardedTouchEvent = true := by
  have hs := sendClick_marked p dom t event
  unfold touchEndForward
  split
  · exact Or.inl hfd
  · split
    · simpa [dispatched_append, hfd, dispatched] using hs
    · exact Or.inl hfd

theorem touchEndDecide_marked (p : Platform) (dom : Dom) (s : State) (event : TouchEvent)
    (start : Int) (t : NodeId) :
    dispatched (touchEndDecide p dom s event start t).effects = [] ∨
    ∃ ev, dispatched (touchEndDecide p dom s event start t).effects = [ev] ∧
      ev.forwardedTouchEvent = true := by
  obtain ⟨-, hfd, -⟩ := focus_calls p dom t
  have hs := sendClick_marked p dom t event
  unfold touchEndDecide
  simp only
  split
  · split
    · split
      · exact Or.inl hfd
      · exact touchEndForward_marked p dom s event _ _ hfd
    · exact touchEndForward_marked p dom s event _ _ rfl
  · split
    · split
      · exact Or.inl rfl
      · split
        · simpa [dispatched_append, hfd] using hs
        · split
          · simpa [dispatched_append, hfd, dispatched] using hs
          · simpa [dispatched_append, hfd] using hs
    · exact touchEndForward_marked p dom s event _ _ rfl

/-- A `touchend` makes `onTouchEnd` dispatch at most one event, and that event carries the
`forwardedTouchEvent` marker. -/
theorem onTouchEnd_marked (p : Platform) (dom : Dom) (s : State) (event : TouchEvent) :
    dispatched (onTouchEnd p dom s event).effects = [] ∨
    ∃ ev, dispatched (onTouchEnd p dom s event).effects = [ev] ∧
      ev.forwardedTouchEvent = true := by
  unfold onTouchEnd
  split
  · exact Or.inl rfl
  · split
    · exact Or.inl rfl
    · split
      · exact Or.inl rfl
      · unfold touchEndCommit
        split
        · exact Or.inl rfl
        · exact Or.inl rfl
        · exact touchEndDecide_marked p _ _ event _ _

/-- The tracked target survives `touchEndDecide` when the resolved target is a label, or does
not need focus, or is a `select` on iOS reached within 100 ms. -/
theorem touchEndDecide_target (p : Platform) (dom : Dom) (s : State) (event : TouchEvent)
    (start : Int) (r : NodeId)
    (h : toLowerCase (dom.node r).tagName = "label" ∨ needsFocus p (dom.node r) = false ∨
      (p.deviceIsIOS = true ∧ toLowerCase (dom.node r).tagName = "select" ∧
        event.timeStamp - start ≤ 100)) :
    (touchEndDecide p dom s event start r).state.targetElement = s.targetElement := by
  unfold touchEndDecide
  simp only
  split
  · split
    · split
      · rfl
      · rw [touchEndForward_state]
    · rw [touchEndForward_state]
  · rename_i hnl
    split
    · rename_i hnf
      rcases h with h | h | ⟨hios, hsel, htime⟩
      · exact absurd h hnl
      · rw [h] at hnf; exact absurd hnf (by simp)
      · simp [hios, hsel, not_lt.mpr htime]
        split <;> rfl
    · rw [touchEndForward_state]

/-- Claim C2, amended. After `onTouchEnd` has committed a tap, on any target and any platform:
it has dispatched at most one synthetic event, and that event is marked `forwardedTouchEvent`;
every event carrying that marker is permitted by `onClick`, which changes nothing, both in the
state in which the event is dispatched (`committed s event`) and in the state `onTouchEnd`
leaves; and, provided `onTouchEnd` has left a tracked target in place and that tracked target
(`this.targetElement`, which is what `onMouse` tests) needs no native click, the next
cancelable click without the marker (other than a submit-control click with detail 0) is
suppressed: `stopImmediatePropagation` (or the `propagationStopped` flag), `stopPropagation`
and `preventDefault` are applied, the result is false and the tracked target is cleared.
`onTouchEnd` leaves the tracked target as it was whenever the resolved target is a label, or
does not need focus, or is a `select` on iOS whose `touchend` comes at most 100 ms after
tracking started. -/
theorem click_after_forwarded_tap (p : Platform) (dom : Dom) (s : State) (event : TouchEvent)
    (htrack : s.trackingClick = true)
    (hdelay : ∀ last, s.lastClickTime = some last → ¬ event.timeStamp - last < s.tapDelay)
    (htimeout : event.timeStamp - s.trackingClickStart ≤ s.tapTimeout) :
    (dispatched (onTouchEnd p dom s event).effects = [] ∨
      ∃ ev, dispatched (onTouchEnd p dom s event).effects = [ev] ∧
        ev.forwardedTouchEvent = true) ∧
    (∀ (dom2 : Dom) (click : MouseEvent), click.forwardedTouchEvent = true →
        ((onClick p dom2 (committed s event) click).result = Completion.returned true ∧
          (onClick p dom2 (committed s event) click).effects = [] ∧
          (onClick p dom2 (committed s event) click).state = committed s event) ∧
        ((onClick p dom2 (onTouchEnd p dom s event).state click).result =
            Completion.returned true ∧
          (onClick p dom2 (onTouchEnd p dom s event).state click).effects = [] ∧
          (onClick p dom2 (onTouchEnd p dom s event).state click).state =
            (onTouchEnd p dom s event).state)) ∧
    (∀ (t : NodeId) (dom2 : Dom) (click : MouseEvent),
        (onTouchEnd p dom s event).state.targetElement = some t →
        needsClick p (dom2.node t) = false →
        click.cancelable = true → click.forwardedTouchEvent = false →
        ¬ ((dom2.node click.target).type = "submit" ∧ click.detail = 0) →
        (onClick p dom2 (onTouchEnd p dom s event).state click).result = Completion.returned false ∧
        (onClick p dom2 (onTouchEnd p dom s event).state click).effects = suppression click ∧
        (onClick p dom2 (onTouchEnd p dom s event).state click).state.targetElement = none) ∧
    (∀ (r : NodeId) (dom1 : Dom), resolveTarget p dom s event = some (some r, dom1) →
        (toLowerCase (dom1.node r).tagName = "label" ∨ needsFocus p (dom1.node r) = false ∨
          (p.deviceIsIOS = true ∧ toLowerCase (dom1.node r).tagName = "select" ∧
            event.timeStamp - s.trackingClickStart ≤ 100)) →
        (onTouchEnd p dom s event).state.targetElement = s.targetElement) := by
  have hd := elapsedLess_false _ _ _ hdelay
  have htr : (onTouchEnd p dom s event).state.trackingClick = false := by
    rw [onTouchEnd_commit p dom s event htrack hd htimeout, touchEndCommit_tracking]
  refine ⟨onTouchEnd_marked p dom s event, ?_, ?_, ?_⟩
  · intro dom2 click hfwd
    rw [onClick_forwarded p dom2 (committed s event) click rfl hfwd,
      onClick_forwarded p dom2 _ click htr hfwd]
    exact ⟨⟨rfl, rfl, rfl⟩, rfl, rfl, rfl⟩
  · intro t dom2 click htg hneeds hcancel hfwd hsubmit
    obtain ⟨h1, h2, h3⟩ :=
      onClick_suppress p dom2 _ click t htr htg hcancel hfwd hsubmit (Or.inl hneeds)
    exact ⟨h1, h2, by rw [h3]⟩
  · intro r dom1 hresolved hkeep
    rw [onTouchEnd_decide p dom dom1 s event r htrack hdelay htimeout hresolved,
      touchEndDecide_target p dom1 _ event _ r hkeep]
    rfl

/-- Claim C2, amended, on two taps. On a plain element (Scenario A) the tracked target stays
and the browser's own click is rejected and cancelled by `onClick`. On iOS a tap on a `select`,
which needs focus, dispatches one synthetic click and keeps the tracked target, and the
browser's own click is rejected and cancelled as well. -/
theorem click_after_forwarded_tap_scenario :
    (started fresh 7 0).trackingClick = true ∧
    needsClick other (page.node 7) = false ∧
    (tap fresh 7 0 150).state.targetElement = some 7 ∧
    (onClick other page (tap fresh 7 0 150).state (nativeClick 7)).result =
      Completion.returned false ∧
    (onClick other page (tap fresh 7 0 150).state (nativeClick 7)).effects =
      suppression (nativeClick 7) ∧
    (onClick other page (tap fresh 7 0 150).state (nativeClick 7)).state.targetElement = none ∧
    (startedOn ios controls 15 0).state.trackingClick = true ∧
    needsFocus ios (controls.node 15) = true ∧
    needsClick ios (controls.node 15) = false ∧
    dispatched (tapOn ios controls 15 0 50).effects =
      [{ type := "click", target := 15, detail := 1, screenX := 100, screenY := 100,
         clientX := 100, clientY := 100, forwardedTouchEvent := true }] ∧
    (tapOn ios controls 15 0 50).state.targetElement = some 15 ∧
    (onClick ios controls (tapOn ios controls 15 0 50).state (nativeClick 15)).result =
      Completion.returned false ∧
    (onClick ios controls (tapOn ios controls 15 0 50).state (nativeClick 15)).effects =
      suppression (nativeClick 15) ∧
    (onClick ios controls (tapOn ios controls 15 0 50).state (nativeClick 15)).state.targetElement =
      none :=
  have ha := click_after_forwarded_tap other page (started fresh 7 0) (touch 7 150 100 100)
    (by decide)
    (by intro last h
        exact absurd h (by simp [show (started fresh 7 0).lastClickTime = none by decide]))
    (by decide)
  have hakeep : (tap fresh 7 0 150).state.targetElement = some 7 :=
    ha.2.2.2 7 page rfl (Or.inr (Or.inl (by decide)))
  have h := click_after_forwarded_tap ios controls (startedOn ios controls 15 0).state
    (touch 15 50 100 100) (by decide)
    (by intro last h
        exact absurd h
          (by simp [show (startedOn ios controls 15 0).state.lastClickTime = none by decide]))
    (by decide)
  have hkeep : (tapOn ios controls 15 0 50).state.targetElement = some 15 :=
    h.2.2.2 15 controls rfl (Or.inr (Or.inr ⟨rfl, by decide, by decide⟩))
  have hanext := ha.2.2.1 7 page (nativeClick 7) hakeep (by decide) (by decide) (by decide)
    (by decide)
  ⟨by decide, by decide, hakeep, hanext.1, hanext.2.1, hanext.2.2,
   by decide, by decide, by decide, by decide, hkeep,
   h.2.2.1 15 controls (nativeClick 15) hkeep (by decide) (by decide) (by decide) (by decide)⟩

/-- Claim C2 as stated fails in two ways. On a target that needs focus: a tap on a text input
(which needs no native click) is committed and a synthetic click is dispatched, but
`onTouchEnd` clears the tracked target itself, so the next cancelable, unmarked click is
permitted by `onClick` and nothing is cancelled. On iOS 6/7 when hit-testing resolves the tap
to another element: the gesture is tracked on a video (which needs a native click), the
`touchend` resolves to a plain `div` (which does not), a synthetic click is dispatched on the
`div`, and the next cancelable, unmarked click is permitted, because `onMouse` tests the
tracked video. -/
theorem focused_tap_next_click_permitted :
    (started fresh 5 0).trackingClick = true ∧
    needsClick other (page.node 5) = false ∧
    dispatched (tap fresh 5 0 50).effects =
      [{ type := "click", target := 5, detail := 1, screenX := 100, screenY := 100,
         clientX := 100, clientY := 100, forwardedTouchEvent := true }] ∧
    (nativeClick 5).cancelable = true ∧ (nativeClick 5).forwardedTouchEvent = false ∧
    ¬ ((page.node (nativeClick 5).target).type = "submit" ∧ (nativeClick 5).detail = 0) ∧
    (onClick other page (tap fresh 5 0 50).state (nativeClick 5)).result =
      Completion.returned true ∧
    (onClick other page (tap fresh 5 0 50).state (nativeClick 5)).effects = [] ∧
    (startedOn ios6 formOverDiv 14 0).state.trackingClick = true ∧
    (startedOn ios6 formOverDiv 14 0).state.targetElement = some 14 ∧
    Option.map Prod.fst (resolveTarget ios6 formOverDiv (startedOn ios6 formOverDiv 14 0).state
      (touch 14 50 100 100)) = some (some 7) ∧
    needsClick ios6 (formOverDiv.node 7) = false ∧
    needsClick ios6 (formOverDiv.node 14) = true ∧
    dispatched (tapOn ios6 formOverDiv 14 0 50).effects =
      [{ type := "click", target := 7, detail := 1, screenX := 100, screenY := 100,
         clientX := 100, clientY := 100, forwardedTouchEvent := true }] ∧
    (onClick ios6 formOverDiv (tapOn ios6 formOverDiv 14 0 50).state (nativeClick 7)).result =
      Completion.returned true ∧
    (onClick ios6 formOverDiv (tapOn ios6 formOverDiv 14 0 50).state (nativeClick 7)).effects =
      [] := by
  decide

/-! ## Double-tap suppression (C3, C4) -/

/-- Claim C3, evaluated. While a gesture is tracked, a `touchend` whose time stamp minus
`lastClickTime` is less than `tapDelay` makes `onTouchEnd` set `cancelNextClick` to true and
nothing else: no synthetic click, no focus, no `preventDefault`, `lastClickTime` unchanged,
result true. It also leaves `trackingClick` true, and therefore the tap does not produce zero
click actions: every click that then reaches `onClick`, the browser's own cancelable click
included, is permitted (result true) and nothing is cancelled; `cancelNextClick` is never
consulted. -/
theorem onTouchEnd_double_tap_sets_cancel (p : Platform) (dom : Dom) (s : State)
    (event : TouchEvent) (last : Int)
    (htrack : s.trackingClick = true)
    (hlast : s.lastClickTime = some last)
    (hfast : event.timeStamp - last < s.tapDelay) :
    (onTouchEnd p dom s event).state = { s with cancelNextClick := some true } ∧
    (onTouchEnd p dom s event).state.lastClickTime = s.lastClickTime ∧
    (onTouchEnd p dom s event).effects = [] ∧
    (onTouchEnd p dom s event).result = Completion.returned true ∧
    (onTouchEnd p dom s event).state.trackingClick = true ∧
    ∀ (dom2 : Dom) (click : MouseEvent),
      (onClick p dom2 (onTouchEnd p dom s event).state click).result = Completion.returned true ∧
      (onClick p dom2 (onTouchEnd p dom s event).state click).effects = [] := by
  have hd : elapsedLess event.timeStamp s.lastClickTime s.tapDelay = true := by
    simp [elapsedLess, hlast, hfast]
  have hout : onTouchEnd p dom s event = pass { s with cancelNextClick := some true } dom true := by
    unfold onTouchEnd
    simp [htrack, hd]
  rw [hout]
  refine ⟨rfl, rfl, rfl, rfl, htrack, ?_⟩
  intro dom2 click
  simp [pass, onClick, htrack]

/-- Claim C3 on the second tap of Scenario C: first tap accepted at `t = 20`, second tap from
`t = 100` to `t = 120`, `tapDelay = 200`. The second `touchend` sets `cancelNextClick` and
makes no call, and the browser's own click that follows is permitted by `onClick`. -/
theorem onTouchEnd_double_tap_scenario :
    (started (tap fresh 7 0 20).state 7 100).trackingClick = true ∧
    (started (tap fresh 7 0 20).state 7 100).lastClickTime = some 20 ∧
    (120 : Int) - 20 < (started (tap fresh 7 0 20).state 7 100).tapDelay ∧
    (tap (tap fresh 7 0 20).state 7 100 120).state.cancelNextClick = some true ∧
    (tap (tap fresh 7 0 20).state 7 100 120).effects = [] ∧
    (tap (tap fresh 7 0 20).state 7 100 120).result = Completion.returned true ∧
    (nativeClick 7).cancelable = true ∧ (nativeClick 7).forwardedTouchEvent = false ∧
    (onClick other page (tap (tap fresh 7 0 20).state 7 100 120).state (nativeClick 7)).result =
      Completion.returned true ∧
    (onClick other page (tap (tap fresh 7 0 20).state 7 100 120).state (nativeClick 7)).effects =
      [] :=
  have h := onTouchEnd_double_tap_sets_cancel other page (started (tap fresh 7 0 20).state 7 100)
    (touch 7 120 100 100) 20 (by decide) (by decide) (by decide)
  ⟨by decide, by decide, by decide, by rw [show tap (tap fresh 7 0 20).state 7 100 120 =
      onTouchEnd other page (started (tap fresh 7 0 20).state 7 100) (touch 7 120 100 100)
      from rfl, h.1], h.2.2.1, h.2.2.2.1, rfl, rfl, h.2.2.2.2.2 page (nativeClick 7)⟩

/-- Claim C4, evaluated on Scenario C (taps at `t = 0..20` and `t = 100..120`, `tapDelay = 200`,
same plain element): the first tap dispatches a synthetic click and the second tap's
`touchend` sets `cancelNextClick`, but it leaves `trackingClick` true, so the cancelable
native click that then reaches `onClick` is permitted (result true, nothing cancelled). -/
theorem scenarioC_native_click_permitted :
    dispatched (tap fresh 7 0 20).effects =
      [{ type := "click", target := 7, detail := 1, screenX := 100, screenY := 100,
         clientX := 100, clientY := 100, forwardedTouchEvent := true }] ∧
    (tap (tap fresh 7 0 20).state 7 100 120).state.cancelNextClick = some true ∧
    (tap (tap fresh 7 0 20).state 7 100 120).state.trackingClick = true ∧
    (nativeClick 7).cancelable = true ∧ (nativeClick 7).forwardedTouchEvent = false ∧
    (onClick other page (tap (tap fresh 7 0 20).state 7 100 120).state (nativeClick 7)).result =
      Completion.returned true ∧
    (onClick other page (tap (tap fresh 7 0 20).state 7 100 120).state (nativeClick 7)).effects =
      [] := by
  decide

/-! ## Abandoned and aborted gestures (C5, C6, C7) -/

/-- Claim C5. While a gesture is tracked, a `touchend` more than `tapTimeout` after
`trackingClickStart` (and not within `tapDelay` of `lastClickTime`) makes `onTouchEnd` return
true having done nothing: no synthetic click, no focus, no `preventDefault`, no field changed;
and the click that follows is permitted by `onClick` with nothing cancelled. -/
theorem onTouchEnd_timeout_abandons (p : Platform) (dom : Dom) (s : State) (event : TouchEvent)
    (htrack : s.trackingClick = true)
    (hdelay : ∀ last, s.lastClickTime = some last → ¬ event.timeStamp - last < s.tapDelay)
    (hslow : event.timeStamp - s.trackingClickStart > s.tapTimeout) :
    (onTouchEnd p dom s event).state = s ∧
    (onTouchEnd p dom s event).effects = [] ∧
    (onTouchEnd p dom s event).result = Completion.returned true ∧
    ∀ (dom2 : Dom) (click : MouseEvent),
      (onClick p dom2 (onTouchEnd p dom s event).state click).result = Completion.returned true ∧
      (onClick p dom2 (onTouchEnd p dom s event).state click).effects = [] := by
  have hd := elapsedLess_false _ _ _ hdelay
  have h : onTouchEnd p dom s event = pass s dom true := by
    unfold onTouchEnd
    simp [htrack, hd, hslow]
  rw [h]
  refine ⟨rfl, rfl, rfl, ?_⟩
  intro dom2 click
  simp [pass, onClick, htrack]

/-- Scenario B for claim C5: `touchstart` at `t = 0`, `touchend` at `t = 900`, `tapTimeout = 700`;
nothing is dispatched and the native click is let through. -/
theorem scenarioB_timeout :
    (started fresh 7 0).trackingClick = true ∧
    (900 : Int) - (started fresh 7 0).trackingClickStart > (started fresh 7 0).tapTimeout ∧
    (tap fresh 7 0 900).effects = [] ∧
    (tap fresh 7 0 900).result = Completion.returned true ∧
    (onClick other page (tap fresh 7 0 900).state (nativeClick 7)).result =
      Completion.returned true ∧
    (onClick other page (tap fresh 7 0 900).state (nativeClick 7)).effects = [] :=
  have h := onTouchEnd_timeout_abandons other page (started fresh 7 0) (touch 7 900 100 100)
    (by decide)
    (by intro last h
        exact absurd h (by simp [show (started fresh 7 0).lastClickTime = none by decide]))
    (by decide)
  ⟨by decide, by decide, h.2.1, h.2.2.1, h.2.2.2 page (nativeClick 7)⟩

/-- Claim C6. While a gesture is tracked, a `touchmove` whose resolved target differs from the
tracked target, or whose first changed touch lies more than `touchBoundary` from the start
position in x or in y, sets `trackingClick` to false and `targetElement` to null, after which
a `touchend` calls nothing and returns true; every other `touchmove` leaves the state as it
was. -/
theorem onTouchMove_aborts_when_moved (dom : Dom) (s : State) (event : TouchEvent)
    (htrack : s.trackingClick = true) :
    ((s.targetElement ≠ getTargetElementFromEventTarget dom event.target ∨
       ∃ touch rest, event.changedTouches = touch :: rest ∧
         (|touch.pageX - s.touchStartX| > s.touchBoundary ∨
          |touch.pageY - s.touchStartY| > s.touchBoundary)) →
      (onTouchMove dom s event).state = { s with trackingClick := false, targetElement := none } ∧
      ∀ (p : Platform) (dom2 : Dom) (touchend : TouchEvent),
        (onTouchEnd p dom2 (onTouchMove dom s event).state touchend).effects = [] ∧
        (onTouchEnd p dom2 (onTouchMove dom s event).state touchend).result =
          Completion.returned true) ∧
    (¬ (s.targetElement ≠ getTargetElementFromEventTarget dom event.target ∨
       ∃ touch rest, event.changedTouches = touch :: rest ∧
         (|touch.pageX - s.touchStartX| > s.touchBoundary ∨
          |touch.pageY - s.touchStartY| > s.touchBoundary)) →
      (onTouchMove dom s event).state = s) := by
  constructor
  · intro hmoved
    have hst : (onTouchMove dom s event).state =
        { s with trackingClick := false, targetElement := none } := by
      unfold onTouchMove
      simp only [htrack, Bool.not_true, Bool.false_eq_true, if_false]
      by_cases hne : s.targetElement ≠ getTargetElementFromEventTarget dom event.target
      · simp [hne, pass]
      · rcases hmoved with h | ⟨touch, rest, hch, hfar⟩
        · exact absurd h hne
        · have hm : touchHasMoved s event = some true := by
            unfold touchHasMoved
            rw [hch]
            rcases hfar with h | h <;> simp [h]
          simp [hne, hm, pass]
    refine ⟨hst, ?_⟩
    intro p dom2 touchend
    rw [onTouchEnd_idle p dom2 _ touchend (by rw [hst])]
    exact ⟨rfl, rfl⟩
  · intro hstill
    rw [not_or] at hstill
    obtain ⟨hsame, hnear⟩ := hstill
    unfold onTouchMove
    simp only [htrack, Bool.not_true, Bool.false_eq_true, if_false, hsame]
    cases hch : event.changedTouches with
    | nil => simp [touchHasMoved, hch]
    | cons touch rest =>
      have hm : touchHasMoved s event = some false := by
        unfold touchHasMoved
        rw [hch]
        have := hnear
        simp only [not_exists, not_and, not_or] at this
        obtain ⟨h1, h2⟩ := this touch rest hch
        simp [h1, h2]
      simp [hm, pass]

/-- Claim C6 on a drag: a gesture started at `(100, 100)` moves to `(120, 100)` with
`touchBoundary = 10`; tracking is aborted and the `touchend` that follows calls nothing. -/
theorem onTouchMove_drag_scenario :
    (started fresh 7 0).trackingClick = true ∧
    (onTouchMove page (started fresh 7 0) (touch 7 50 120 100)).state.trackingClick = false ∧
    (onTouchMove page (started fresh 7 0) (touch 7 50 120 100)).state.targetElement = none ∧
    (onTouchEnd other page (onTouchMove page (started fresh 7 0) (touch 7 50 120 100)).state
      (touch 7 90 120 100)).effects = [] :=
  have h := (onTouchMove_aborts_when_moved page (started fresh 7 0) (touch 7 50 120 100)
    (by decide)).1 (Or.inr ⟨touchAt 120 100, [], rfl, Or.inl (by decide)⟩)
  ⟨by decide, by rw [h.1], by rw [h.1], (h.2 other page (touch 7 90 120 100)).1⟩

/-- Claim C7, amended. A `touchstart` reporting more than one target touch is ignored:
`onTouchStart` returns true, calls nothing and leaves every field as it was, so tracking is
neither started nor aborted; when no gesture was being tracked, the `touchend` that follows
calls nothing (no synthetic click). -/
theorem onTouchStart_multi_touch_ignored (p : Platform) (dom : Dom) (s : State)
    (event : TouchEvent) (hmulti : event.targetTouches.length > 1) :
    (onTouchStart p dom s event).state = s ∧
    (onTouchStart p dom s event).effects = [] ∧
    (onTouchStart p dom s event).result = Completion.returned true ∧
    (s.trackingClick = false →
      ∀ (dom2 : Dom) (touchend : TouchEvent),
        (onTouchEnd p dom2 (onTouchStart p dom s event).state touchend).effects = []) := by
  have h : onTouchStart p dom s event = pass s dom true := by
    unfold onTouchStart
    simp [hmulti]
  rw [h]
  refine ⟨rfl, rfl, rfl, ?_⟩
  intro hidle dom2 touchend
  show (onTouchEnd p dom2 s touchend).effects = []
  rw [onTouchEnd_idle p dom2 s touchend hidle]
  rfl

/-- Claim C7, amended, on a fresh arbiter: two fingers land together, then one lifts. -/
theorem onTouchStart_multi_touch_scenario :
    (twoFingers 7 50).targetTouches.length > 1 ∧
    (onTouchStart other page fresh (twoFingers 7 50)).state = fresh ∧
    (onTouchEnd other page (onTouchStart other page fresh (twoFingers 7 50)).state
      (touch 7 100 100 100)).effects = [] :=
  have h := onTouchStart_multi_touch_ignored other page fresh (twoFingers 7 50) (by decide)
  ⟨by decide, h.1, h.2.2.2 (by decide) page (touch 7 100 100 100)⟩

/-- Claim C7 as stated fails: one finger goes down at `t = 0`, a `touchstart` reporting two
fingers follows at `t = 50`, and tracking is not aborted, so the `touchend` at `t = 100`
dispatches a synthetic click. -/
theorem second_finger_still_clicks :
    (touch 7 0 100 100).targetTouches.length = 1 ∧
    (twoFingers 7 50).targetTouches.length > 1 ∧
    (onTouchStart other page (started fresh 7 0) (twoFingers 7 50)).state.trackingClick = true ∧
    dispatched (onTouchEnd other page
        (onTouchStart other page (started fresh 7 0) (twoFingers 7 50)).state
        (touch 7 100 100 100)).effects =
      [{ type := "click", target := 7, detail := 1, screenX := 100, screenY := 100,
         clientX := 100, clientY := 100, forwardedTouchEvent := true }] := by
  decide

/-! ## State after `touchend`, and the invariant (C8, C9) -/

/-- Claim C8, amended. After `onTouchEnd`, `trackingClick` is false whenever it was false
before or the tap is committed (the `touchend` is not within `tapDelay` of `lastClickTime`
and at most `tapTimeout` after `trackingClickStart`); on the `tapTimeout` exit the handler
leaves the whole state as it was, `trackingClick` still true. -/
theorem onTouchEnd_tracking_after (p : Platform) (dom : Dom) (s : State) (event : TouchEvent) :
    ((s.trackingClick = false ∨
        ((∀ last, s.lastClickTime = some last → ¬ event.timeStamp - last < s.tapDelay) ∧
          event.timeStamp - s.trackingClickStart ≤ s.tapTimeout)) →
      (onTouchEnd p dom s event).state.trackingClick = false) ∧
    (s.trackingClick = true →
      (∀ last, s.lastClickTime = some last → ¬ event.timeStamp - last < s.tapDelay) →
      event.timeStamp - s.trackingClickStart > s.tapTimeout →
      (onTouchEnd p dom s event).state = s) := by
  constructor
  · intro h
    cases htr : s.trackingClick with
    | false => rw [onTouchEnd_idle p dom s event htr]; exact htr
    | true =>
      rcases h with h | ⟨hdelay, htimeout⟩
      · rw [htr] at h; exact absurd h (by decide)
      · have hd := elapsedLess_false _ _ _ hdelay
        rw [onTouchEnd_commit p dom s event htr hd htimeout, touchEndCommit_tracking]
  · intro htr hdelay hslow
    have hd := elapsedLess_false _ _ _ hdelay
    unfold onTouchEnd
    simp [htr, hd, hslow, pass]

/-- Claim C8, amended, on Scenario A: the committed tap ends with `trackingClick` false. -/
theorem onTouchEnd_tracking_after_scenario :
    (started fresh 7 0).trackingClick = true ∧
    (tap fresh 7 0 150).state.trackingClick = false :=
  ⟨by decide,
   (onTouchEnd_tracking_after other page (started fresh 7 0) (touch 7 150 100 100)).1
     (Or.inr ⟨by intro last h
                 exact absurd h
                   (by simp [show (started fresh 7 0).lastClickTime = none by decide]),
              by decide⟩)⟩

/-- Claim C8 as stated fails on Scenario B: after the `touchend` at `t = 900`
(`tapTimeout = 700`) `trackingClick` is still true. -/
theorem timeout_keeps_tracking :
    (started fresh 7 0).trackingClick = true ∧
    (tap fresh 7 0 900).state.trackingClick = true := by
  decide

/-- Claim C9. In every state reachable from a freshly constructed arbiter by handler calls
(whose `touchstart` targets resolve to a node), `trackingClick = true` implies that
`targetElement` is not null. -/
theorem tracking_implies_target (p : Platform) (s : State) (hreach : Reachable p s)
    (htrack : s.trackingClick = true) : s.targetElement ≠ none := by
  suffices h : TrackedHasTarget s from h htrack
  clear htrack
  induction hreach with
  | init layer options => intro hc; exact absurd hc (by simp [initialState])
  | touchStart dom event _ hres ih => exact onTouchStart_inv p dom _ event hres ih
  | touchMove dom event _ ih => exact onTouchMove_inv dom _ event ih
  | touchEnd dom event _ ih => exact onTouchEnd_inv p dom _ event ih
  | touchCancel dom _ ih => intro hc; exact absurd hc (by simp [onTouchCancel])
  | mouse dom event _ ih => rw [onMouse_state]; exact ih
  | click dom event _ ih => exact onClick_inv p dom _ event ih

/-- Claim C9 on the state after one `touchstart`: it is reachable, tracking, and has a
target. -/
theorem tracking_implies_target_scenario :
    Reachable other (started fresh 7 0) ∧ (started fresh 7 0).trackingClick = true ∧
    (started fresh 7 0).targetElement ≠ none :=
  ⟨Reachable.touchStart page (touch 7 0 100 100) (Reachable.init 0 none) (by decide),
   by decide,
   tracking_implies_target other (started fresh 7 0)
     (Reachable.touchStart page (touch 7 0 100 100) (Reachable.init 0 none) (by decide))
     (by decide)⟩

/-! ## The mouse handler (C10) -/

/-- Claim C10. The handler `onMouse` suppresses an event (`stopImmediatePropagation` or the
`propagationStopped` flag, then `stopPropagation` and `preventDefault`, result false) if and
only if a target is tracked, the event is not marked `forwardedTouchEvent`, the event is
cancelable, and the tracked target needs no native click or `cancelNextClick` is set; in every
other case it returns true and calls nothing; in both cases no field changes. -/
theorem onMouse_suppresses_iff (p : Platform) (dom : Dom) (s : State) (event : MouseEvent) :
    (((onMouse p dom s event).result = Completion.returned false ∧
        (onMouse p dom s event).effects = suppression event) ↔
      ((∃ t, s.targetElement = some t ∧
          (needsClick p (dom.node t) = false ∨ s.cancelNextClick = some true)) ∧
        event.forwardedTouchEvent = false ∧ event.cancelable = true)) ∧
    (¬ ((∃ t, s.targetElement = some t ∧
          (needsClick p (dom.node t) = false ∨ s.cancelNextClick = some true)) ∧
        event.forwardedTouchEvent = false ∧ event.cancelable = true) →
      (onMouse p dom s event).result = Completion.returned true ∧
      (onMouse p dom s event).effects = []) ∧
    (onMouse p dom s event).state = s := by
  unfold onMouse
  cases htg : s.targetElement with
  | none => simp [pass]
  | some t =>
    cases hf : event.forwardedTouchEvent <;> cases hc : event.cancelable <;>
      cases hn : needsClick p (dom.node t) <;>
      by_cases hx : s.cancelNextClick = some true <;>
      simp [pass, suppression, hx, hn, hf, hc]

/-! ## The click handler and the start of a gesture (C11, C12) -/

/-- Claim C11. The handler `onClick` decides as follows, for every state and click event:
if `trackingClick` is true it sets `trackingClick` false and `targetElement` null and permits
the click; otherwise, if the event target's type is `submit` and the event detail is 0, it
permits the click and leaves the state as it was; otherwise its result (and its calls) are
those of `onMouse` on the same event, and it sets `targetElement` to null exactly when that
result is a rejection. -/
theorem onClick_decision_procedure (p : Platform) (dom : Dom) (s : State) (event : MouseEvent) :
    (s.trackingClick = true →
      (onClick p dom s event).state = { s with targetElement := none, trackingClick := false } ∧
      (onClick p dom s event).effects = [] ∧
      (onClick p dom s event).result = Completion.returned true) ∧
    (s.trackingClick = false →
      ((dom.node event.target).type = "submit" ∧ event.detail = 0) →
      (onClick p dom s event).state = s ∧
      (onClick p dom s event).effects = [] ∧
      (onClick p dom s event).result = Completion.returned true) ∧
    (s.trackingClick = false →
      ¬ ((dom.node event.target).type = "submit" ∧ event.detail = 0) →
      (onClick p dom s event).result = (onMouse p dom s event).result ∧
      (onClick p dom s event).effects = (onMouse p dom s event).effects ∧
      ((onMouse p dom s event).result = Completion.returned false →
        (onClick p dom s event).state = { s with targetElement := none }) ∧
      ((onMouse p dom s event).result ≠ Completion.returned false →
        (onClick p dom s event).state = s)) := by
  refine ⟨?_, ?_, ?_⟩
  · intro htrack
    simp [onClick, htrack, pass]
  · intro hidle hsubmit
    simp [onClick, hidle, hsubmit.1, hsubmit.2, pass]
  · intro hidle hsubmit
    have hs : ((dom.node event.target).type == "submit" && event.detail == 0) = false := by
      rw [Bool.eq_false_iff]
      intro h
      apply hsubmit
      simpa using h
    have hm := onMouse_state p dom s event
    unfold onClick
    simp only [hidle, Bool.false_eq_true, if_false, hs]
    by_cases hr : (onMouse p dom s event).result = Completion.returned false
    · simp [hr, hm, hidle]
    · simp [hr, hm, hidle]

/-- Claim C11 on the browser's click after the tap of Scenario A: tracking is over and the
target is no submit control, so `onClick` returns what `onMouse` returns, a rejection, and
clears the tracked target. -/
theorem onClick_decision_scenario :
    (tap fresh 7 0 150).state.trackingClick = false ∧
    (onMouse other page (tap fresh 7 0 150).state (nativeClick 7)).result =
      Completion.returned false ∧
    (onClick other page (tap fresh 7 0 150).state (nativeClick 7)).result =
      (onMouse other page (tap fresh 7 0 150).state (nativeClick 7)).result ∧
    (onClick other page (tap fresh 7 0 150).state (nativeClick 7)).state =
      { (tap fresh 7 0 150).state with targetElement := none } :=
  have h := (onClick_decision_procedure other page (tap fresh 7 0 150).state
    (nativeClick 7)).2.2 (by decide) (by decide)
  ⟨by decide, by decide, h.1, h.2.2.1 (by decide)⟩

/-- Claim C12. A `touchstart` with exactly one target touch that no platform check aborts
(on iOS: no text selection; on iOS other than iOS 4: no repeated non-zero touch identifier,
and the target resolves to a node, which `updateScrollParent` reads) makes `onTouchStart` set
`trackingClick` to true, `trackingClickStart` to the time stamp, `targetElement` to the event
target (its parent node for a text node) and `touchStartX`/`touchStartY` to the touch's page
coordinates, return true, and call `preventDefault` if and only if the time stamp minus
`lastClickTime` is less than `tapDelay`. -/
theorem onTouchStart_starts_tracking (p : Platform) (dom : Dom) (s : State) (event : TouchEvent) (touch : Touch)
    (hone : event.targetTouches = [touch])
    (hselection : p.deviceIsIOS = true → ¬ (dom.rangeCount ≠ 0 ∧ dom.isCollapsed = false))
    (hrepeat : p.deviceIsIOS = true → p.deviceIsIOS4 = false →
      ¬ (touch.identifier ≠ 0 ∧ touch.identifier = s.lastTouchIdentifier))
    (hnode : p.deviceIsIOS = true → p.deviceIsIOS4 = false →
      getTargetElementFromEventTarget dom event.target ≠ none) :
    (onTouchStart p dom s event).state.trackingClick = true ∧
    (onTouchStart p dom s event).state.trackingClickStart = event.timeStamp ∧
    (onTouchStart p dom s event).state.targetElement =
      (if (dom.node event.target).nodeType = 3 then (dom.node event.target).parentNode
       else some event.target) ∧
    (onTouchStart p dom s event).state.touchStartX = touch.pageX ∧
    (onTouchStart p dom s event).state.touchStartY = touch.pageY ∧
    (onTouchStart p dom s event).result = Completion.returned true ∧
    (Effect.preventDefault ∈ (onTouchStart p dom s event).effects ↔
      ∃ last, s.lastClickTime = some last ∧ event.timeStamp - last < s.tapDelay) := by
  have htrackfacts : ∀ (s0 : State) (dom0 : Dom), s0.lastClickTime = s.lastClickTime →
      s0.tapDelay = s.tapDelay →
      (touchStartTrack s0 dom0 event (getTargetElementFromEventTarget dom event.target)).state.trackingClick = true ∧
      (touchStartTrack s0 dom0 event (getTargetElementFromEventTarget dom event.target)).state.trackingClickStart = event.timeStamp ∧
      (touchStartTrack s0 dom0 event (getTargetElementFromEventTarget dom event.target)).state.targetElement =
        (if (dom.node event.target).nodeType = 3 then (dom.node event.target).parentNode
         else some event.target) ∧
      (touchStartTrack s0 dom0 event (getTargetElementFromEventTarget dom event.target)).state.touchStartX = touch.pageX ∧
      (touchStartTrack s0 dom0 event (getTargetElementFromEventTarget dom event.target)).state.touchStartY = touch.pageY ∧
      (touchStartTrack s0 dom0 event (getTargetElementFromEventTarget dom event.target)).result = Completion.returned true ∧
      (Effect.preventDefault ∈ (touchStartTrack s0 dom0 event (getTargetElementFromEventTarget dom event.target)).effects ↔
        ∃ last, s.lastClickTime = some last ∧ event.timeStamp - last < s.tapDelay) := by
    intro s0 dom0 hl hd
    have key : (Effect.preventDefault ∈
          (if elapsedLess event.timeStamp s.lastClickTime s.tapDelay = true then
            [Effect.preventDefault] else []) ↔
        ∃ last, s.lastClickTime = some last ∧ event.timeStamp - last < s.tapDelay) := by
      cases hlast : s.lastClickTime with
      | none => simp [elapsedLess]
      | some l =>
        by_cases hlt : event.timeStamp - l < s.tapDelay <;> simp [elapsedLess, hlt]
    unfold touchStartTrack
    simp only [hone, List.head?_cons, hl, hd]
    exact ⟨trivial, trivial, rfl, trivial, trivial, trivial, key⟩
  have hlen : ¬ event.targetTouches.length > 1 := by simp [hone]
  unfold onTouchStart
  simp only [hlen, if_false]
  cases hios : p.deviceIsIOS with
  | false => simpa using htrackfacts s dom rfl rfl
  | true =>
    have hsel : (dom.rangeCount != 0 && !dom.isCollapsed) = false := by
      rw [Bool.eq_false_iff]
      intro h
      apply hselection hios
      simpa using h
    simp only [if_true, hsel, Bool.false_eq_true, if_false]
    cases h4 : p.deviceIsIOS4 with
    | true => simpa using htrackfacts s dom rfl rfl
    | false =>
      have hrep : (truthy touch.identifier && touch.identifier == s.lastTouchIdentifier) = false := by
        rw [Bool.eq_false_iff]
        intro h
        apply hrepeat hios h4
        simpa [truthy] using h
      simp only [Bool.not_false, if_true, hone, List.head?_cons, hrep, Bool.false_eq_true, if_false]
      cases ht : getTargetElementFromEventTarget dom event.target with
      | none => exact absurd ht (hnode hios h4)
      | some t =>
        simp only
        have := htrackfacts { s with lastTouchIdentifier := touch.identifier }
          (updateScrollParent dom t) rfl rfl
        rw [ht] at this
        exact this

/-- Claim C12 on the `touchstart` of Scenario A. -/
theorem onTouchStart_starts_tracking_scenario :
    (touch 7 0 100 100).targetTouches = [touchAt 100 100] ∧
    (startedOn other page 7 0).state.trackingClick = true ∧
    (startedOn other page 7 0).state.trackingClickStart = 0 ∧
    (startedOn other page 7 0).state.targetElement = some 7 ∧
    (startedOn other page 7 0).state.touchStartX = 100 ∧
    (startedOn other page 7 0).state.touchStartY = 100 ∧
    (startedOn other page 7 0).result = Completion.returned true ∧
    Effect.preventDefault ∉ (startedOn other page 7 0).effects :=
  have h := onTouchStart_starts_tracking other page fresh (touch 7 0 100 100) (touchAt 100 100)
    rfl (fun h => absurd h (by decide)) (fun h => absurd h (by decide))
    (fun h => absurd h (by decide))
  ⟨rfl, h.1, h.2.1, h.2.2.1, h.2.2.2.1, h.2.2.2.2.1, h.2.2.2.2.2.1, by decide⟩

/-! ## Labels (C13, C14) -/

/-- Claim C13, evaluated on Scenario D (a tap on the label for the email input, on a platform
that is neither Android nor iOS, and on Android): the control is found, but the focus call is
made on the label (node 11), not on the control (node 12). -/
theorem label_tap_focuses_label :
    toLowerCase (form.node 11).tagName = "label" ∧
    findControl form 11 = some 12 ∧
    focused (tapOn other form 11 0 50).effects = [11] ∧
    focused (tapOn android form 11 0 50).effects = [11] := by
  decide

/-- Claim C14, amended. For a committed tap whose resolved target is a label with an
associated control, on every platform, `onTouchEnd` either forwards exactly one synthetic
click to the control and calls `preventDefault` on the `touchend`, or forwards no synthetic
event and does not call `preventDefault`; on Android it always does the latter. In the second
case the click that follows is permitted by `onClick` (result true, nothing cancelled)
provided the tracked target (`this.targetElement`, which is what `onMouse` tests) needs a
native click. The resolved label itself always needs one, and wherever the target is not
re-derived by hit-testing the resolved label is the tracked target. -/
theorem label_tap_click_or_native (p : Platform) (dom dom1 : Dom) (s : State) (event : TouchEvent)
    (t r c : NodeId) (touch : Touch) (rest : List Touch)
    (htrack : s.trackingClick = true)
    (hdelay : ∀ last, s.lastClickTime = some last → ¬ event.timeStamp - last < s.tapDelay)
    (htimeout : event.timeStamp - s.trackingClickStart ≤ s.tapTimeout)
    (htarget : s.targetElement = some t)
    (hresolved : resolveTarget p dom s event = some (some r, dom1))
    (hlabel : toLowerCase (dom1.node r).tagName = "label")
    (hcontrol : findControl dom1 r = some c)
    (htouch : event.changedTouches = touch :: rest) :
    ((dispatched (onTouchEnd p dom s event).effects =
          [{ type := "click", target := c, detail := 1
             screenX := touch.screenX, screenY := touch.screenY
             clientX := touch.clientX, clientY := touch.clientY
             forwardedTouchEvent := true }] ∧
        Effect.preventDefault ∈ (onTouchEnd p dom s event).effects) ∨
      (dispatched (onTouchEnd p dom s event).effects = [] ∧
        Effect.preventDefault ∉ (onTouchEnd p dom s event).effects ∧
        ∀ (dom2 : Dom) (click : MouseEvent), needsClick p (dom2.node t) = true →
          (onClick p dom2 (onTouchEnd p dom s event).state click).result =
            Completion.returned true ∧
          (onClick p dom2 (onTouchEnd p dom s event).state click).effects = [])) ∧
    (p.deviceIsAndroid = true →
      dispatched (onTouchEnd p dom s event).effects = [] ∧
      Effect.preventDefault ∉ (onTouchEnd p dom s event).effects ∧
      ∀ (dom2 : Dom) (click : MouseEvent), needsClick p (dom2.node t) = true →
        (onClick p dom2 (onTouchEnd p dom s event).state click).result =
          Completion.returned true ∧
        (onClick p dom2 (onTouchEnd p dom s event).state click).effects = []) ∧
    needsClick p (dom1.node r) = true ∧
    (p.deviceIsIOSWithBadTarget = false → r = t ∧ dom1 = dom) := by
  obtain ⟨-, hfd, hfp⟩ := focus_calls p dom1 r
  obtain ⟨hok, hdisp⟩ := sendClick_of_touch p dom1 c event touch rest htouch
  have hpass : ∀ (dom2 : Dom) (click : MouseEvent), needsClick p (dom2.node t) = true →
      (onClick p dom2 (committed s event) click).result = Completion.returned true ∧
      (onClick p dom2 (committed s event) click).effects = [] := by
    intro dom2 click hneeds
    have : onClick p dom2 (committed s event) click = pass (committed s event) dom2 true := by
      unfold onClick
      simp only [committed, Bool.false_eq_true, if_false]
      split
      · rfl
      · unfold onMouse
        simp only [htarget]
        split
        · rfl
        · split
          · rfl
          · simp [hneeds, pass]
    rw [this]
    exact ⟨rfl, rfl⟩
  have hnc : needsClick p (dom1.node r) = true := by
    unfold needsClick
    simp [hlabel]
  have hsame : p.deviceIsIOSWithBadTarget = false → r = t ∧ dom1 = dom := by
    intro hbad
    have h := hresolved
    simp [resolveTarget, hbad, htarget] at h
    exact ⟨h.1.symm, h.2.symm⟩
  rw [onTouchEnd_decide p dom dom1 s event r htrack hdelay htimeout hresolved]
  cases hand : p.deviceIsAndroid with
  | true =>
    have hout : touchEndDecide p dom1 (committed s event) event s.trackingClickStart r =
        { state := committed s event, dom := dom1, effects := focus p dom1 r,
          result := Completion.returned false } := by
      unfold touchEndDecide
      simp [hlabel, hcontrol, hand]
    rw [hout]
    exact ⟨Or.inr ⟨hfd, hfp, hpass⟩, fun _ => ⟨hfd, hfp, hpass⟩, hnc, hsame⟩
  | false =>
    have hout : touchEndDecide p dom1 (committed s event) event s.trackingClickStart r =
        touchEndForward p dom1 (committed s event) event c (focus p dom1 r) := by
      unfold touchEndDecide
      simp [hlabel, hcontrol, hand]
    rw [hout]
    refine ⟨?_, fun h => absurd h (by simp), hnc, hsame⟩
    unfold touchEndForward
    split
    · exact Or.inr ⟨hfd, hfp, hpass⟩
    · split
      · left
        simp [dispatched_append, hfd, hdisp, dispatched, determineEventType, hand]
      · exact Or.inr ⟨hfd, hfp, hpass⟩

/-- Claim C14, amended, on Scenario D. Away from Android one click goes to the email input and
the `touchend` is cancelled. On Android nothing is dispatched, the `touchend` is not cancelled,
and the label's own click, which follows, is permitted by `onClick`. -/
theorem label_tap_scenario :
    (startedOn other form 11 0).state.trackingClick = true ∧
    toLowerCase (form.node 11).tagName = "label" ∧
    findControl form 11 = some 12 ∧
    dispatched (tapOn other form 11 0 50).effects =
      [{ type := "click", target := 12, detail := 1, screenX := 100, screenY := 100,
         clientX := 100, clientY := 100, forwardedTouchEvent := true }] ∧
    Effect.preventDefault ∈ (tapOn other form 11 0 50).effects ∧
    (startedOn android form 11 0).state.trackingClick = true ∧
    (startedOn android form 11 0).state.targetElement = some 11 ∧
    dispatched (tapOn android form 11 0 50).effects = [] ∧
    Effect.preventDefault ∉ (tapOn android form 11 0 50).effects ∧
    (onClick android form (tapOn android form 11 0 50).state (nativeClick 11)).result =
      Completion.returned true ∧
    (onClick android form (tapOn android form 11 0 50).state (nativeClick 11)).effects = [] :=
  have h := (label_tap_click_or_native other form form (startedOn other form 11 0).state
    (touch 11 50 100 100) 11 11 12 (touchAt 100 100) [] (by decide)
    (by intro last h
        exact absurd h
          (by simp [show (startedOn other form 11 0).state.lastClickTime = none by decide]))
    (by decide) (by decide) rfl (by decide) (by decide) rfl).1
  have hclick := h.elim id (fun hnone => absurd hnone.1 (by decide))
  have ha := (label_tap_click_or_native android form form (startedOn android form 11 0).state
    (touch 11 50 100 100) 11 11 12 (touchAt 100 100) [] (by decide)
    (by intro last h
        exact absurd h
          (by simp [show (startedOn android form 11 0).state.lastClickTime = none by decide]))
    (by decide) (by decide) rfl (by decide) (by decide) rfl).2.1 rfl
  ⟨by decide, by decide, by decide, hclick.1, hclick.2, by decide, by decide, ha.1, ha.2.1,
   ha.2.2 form (nativeClick 11) (by decide)⟩

/-- Claim C14 as stated fails on iOS 6/7 when hit-testing resolves the tap to a label that the
gesture was not tracked on: the gesture is tracked on a plain `div` (node 7), the `touchend`
resolves to a label (node 16) whose control (node 17) is a disabled input. Nothing is
dispatched and the `touchend` is not cancelled, yet the label's own click, which follows, is
rejected and cancelled by `onClick`, because `onMouse` tests the tracked `div`. -/
theorem retargeted_label_click_suppressed :
    (startedOn ios6 controlsOverLabel 7 0).state.trackingClick = true ∧
    (startedOn ios6 controlsOverLabel 7 0).state.targetElement = some 7 ∧
    Option.map Prod.fst (resolveTarget ios6 controlsOverLabel
      (startedOn ios6 controlsOverLabel 7 0).state (touch 7 50 100 100)) = some (some 16) ∧
    toLowerCase (controlsOverLabel.node 16).tagName = "label" ∧
    findControl controlsOverLabel 16 = some 17 ∧
    dispatched (tapOn ios6 controlsOverLabel 7 0 50).effects = [] ∧
    Effect.preventDefault ∉ (tapOn ios6 controlsOverLabel 7 0 50).effects ∧
    (nativeClick 16).cancelable = true ∧ (nativeClick 16).forwardedTouchEvent = false ∧
    (onClick ios6 controlsOverLabel (tapOn ios6 controlsOverLabel 7 0 50).state
      (nativeClick 16)).result = Completion.returned false ∧
    (onClick ios6 controlsOverLabel (tapOn ios6 controlsOverLabel 7 0 50).state
      (nativeClick 16)).effects = suppression (nativeClick 16) := by
  decide

/-! ## Targets that need focus (C15) -/

/-- Claim C15, amended. For a committed tap whose resolved target is not a label and needs
focus, whose `touchend` is at most 100 ms after tracking started, and which is not an input
inside a framed document on iOS, `onTouchEnd` focuses the target, dispatches exactly one
synthetic click on it and returns false; it then calls `preventDefault` on the `touchend` and
clears `targetElement`, except that on iOS for a `select` it does neither. -/
theorem focus_tap_forwards_click (p : Platform) (dom dom1 : Dom) (s : State) (event : TouchEvent)
    (r : NodeId) (touch : Touch) (rest : List Touch)
    (htrack : s.trackingClick = true)
    (hdelay : ∀ last, s.lastClickTime = some last → ¬ event.timeStamp - last < s.tapDelay)
    (htimeout : event.timeStamp - s.trackingClickStart ≤ s.tapTimeout)
    (hresolved : resolveTarget p dom s event = some (some r, dom1))
    (hlabel : toLowerCase (dom1.node r).tagName ≠ "label")
    (hfocus : needsFocus p (dom1.node r) = true)
    (hquick : event.timeStamp - s.trackingClickStart ≤ 100)
    (hframe : ¬ (p.deviceIsIOS = true ∧ dom1.framed = true ∧
      toLowerCase (dom1.node r).tagName = "input"))
    (htouch : event.changedTouches = touch :: rest) :
    focused (onTouchEnd p dom s event).effects = [r] ∧
    dispatched (onTouchEnd p dom s event).effects =
      [{ type := "click", target := r, detail := 1
         screenX := touch.screenX, screenY := touch.screenY
         clientX := touch.clientX, clientY := touch.clientY
         forwardedTouchEvent := true }] ∧
    (onTouchEnd p dom s event).result = Completion.returned false ∧
    ((p.deviceIsIOS = true ∧ toLowerCase (dom1.node r).tagName = "select") →
      (onTouchEnd p dom s event).effects = focus p dom1 r ++ (sendClick p dom1 r event).1 ∧
      Effect.preventDefault ∉ (onTouchEnd p dom s event).effects ∧
      (onTouchEnd p dom s event).state.targetElement = s.targetElement) ∧
    (¬ (p.deviceIsIOS = true ∧ toLowerCase (dom1.node r).tagName = "select") →
      (onTouchEnd p dom s event).effects =
        focus p dom1 r ++ (sendClick p dom1 r event).1 ++ [Effect.preventDefault] ∧
      (onTouchEnd p dom s event).state.targetElement = none) := by
  obtain ⟨hff, hfd, hfp⟩ := focus_calls p dom1 r
  obtain ⟨hok, hdisp⟩ := sendClick_of_touch p dom1 r event touch rest htouch
  obtain ⟨hsf, hsp⟩ := sendClick_quiet p dom1 r event
  have htype : determineEventType p (dom1.node r) = "click" := by
    unfold determineEventType
    by_cases hsel : toLowerCase (dom1.node r).tagName = "select"
    · have : p.deviceIsAndroid = false := by
        have h := hfocus
        unfold needsFocus at h
        simp only [hsel] at h
        simpa using h
      simp [this]
    · simp [hsel]
  rw [htype] at hdisp
  have hgate : (decide (event.timeStamp - s.trackingClickStart > 100) ||
      (p.deviceIsIOS && dom1.framed && toLowerCase (dom1.node r).tagName == "input")) = false := by
    rw [Bool.eq_false_iff]
    intro h
    simp only [Bool.or_eq_true, decide_eq_true_eq, Bool.and_eq_true, beq_iff_eq] at h
    rcases h with h | h
    · exact absurd h (not_lt.mpr hquick)
    · exact hframe ⟨h.1.1, h.1.2, h.2⟩
  rw [onTouchEnd_decide p dom dom1 s event r htrack hdelay htimeout hresolved]
  by_cases hsel : p.deviceIsIOS = true ∧ toLowerCase (dom1.node r).tagName = "select"
  · have hc : (!p.deviceIsIOS || toLowerCase (dom1.node r).tagName != "select") = false := by
      simp [hsel.1, hsel.2]
    have hout : touchEndDecide p dom1 (committed s event) event s.trackingClickStart r =
        { state := committed s event, dom := dom1,
          effects := focus p dom1 r ++ (sendClick p dom1 r event).1,
          result := Completion.returned false } := by
      unfold touchEndDecide
      simp only [hlabel, if_false, hfocus, if_true, hgate, Bool.false_eq_true, hok,
        Bool.not_true, hc]
    rw [hout]
    refine ⟨?_, ?_, rfl, fun _ => ⟨rfl, ?_, rfl⟩, fun h => absurd hsel h⟩
    · simp [focused_append, hff, hsf]
    · simp [dispatched_append, hfd, hdisp]
    · simp [hfp, hsp]
  · have hc : (!p.deviceIsIOS || toLowerCase (dom1.node r).tagName != "select") = true := by
      rw [not_and] at hsel
      cases hios : p.deviceIsIOS with
      | false => simp
      | true => simp [hsel hios]
    have hout : touchEndDecide p dom1 (committed s event) event s.trackingClickStart r =
        { state := { committed s event with targetElement := none }, dom := dom1,
          effects := focus p dom1 r ++ (sendClick p dom1 r event).1 ++ [Effect.preventDefault],
          result := Completion.returned false } := by
      unfold touchEndDecide
      simp only [hlabel, if_false, hfocus, if_true, hgate, Bool.false_eq_true, hok,
        Bool.not_true, hc]
    rw [hout]
    refine ⟨?_, ?_, rfl, fun h => absurd h hsel, fun _ => ⟨rfl, rfl⟩⟩
    · simp [focused_append, hff, hsf, focused]
    · simp [dispatched_append, hfd, hdisp, dispatched]

/-- Claim C15, amended, on a text input tapped for 50 ms. -/
theorem focus_tap_scenario :
    (started fresh 5 0).trackingClick = true ∧
    needsFocus other (page.node 5) = true ∧
    focused (tap fresh 5 0 50).effects = [5] ∧
    dispatched (tap fresh 5 0 50).effects =
      [{ type := "click", target := 5, detail := 1, screenX := 100, screenY := 100,
         clientX := 100, clientY := 100, forwardedTouchEvent := true }] ∧
    (tap fresh 5 0 50).result = Completion.returned false :=
  have h := focus_tap_forwards_click other page page (started fresh 5 0) (touch 5 50 100 100) 5
    (touchAt 100 100) [] (by decide)
    (by intro last h
        exact absurd h (by simp [show (started fresh 5 0).lastClickTime = none by decide]))
    (by decide) rfl (by decide) (by decide) (by decide) (by decide) rfl
  ⟨by decide, by decide, h.1, h.2.1, h.2.2.1⟩

/-- Claim C15 as stated fails on a label: a label of class `needsfocus` without a control
needs focus, yet a committed 50 ms tap on it focuses nothing and dispatches nothing, the label
branch of `onTouchEnd` being tried first. -/
theorem needsfocus_label_not_focused :
    (startedOn other form 13 0).state.trackingClick = true ∧
    needsFocus other (form.node 13) = true ∧
    focused (tapOn other form 13 0 50).effects = [] ∧
    dispatched (tapOn other form 13 0 50).effects = [] := by
  decide

/-! ## Taps that stop a fling (C16) -/

/-- Claim C16, amended. On iOS other than iOS 4: when the `touchstart` of a tap recorded a
scroll parent for the target (`fastClickScrollParent`: the nearest of the target and its
ancestors with `scrollHeight > offsetHeight`, unless an earlier one still contains the
target) and that node's `scrollTop` at `touchend` differs from its `scrollTop` at
`touchstart`, `onTouchEnd` calls nothing (no synthetic click, no `preventDefault`) and returns
true, provided the resolved target is not a label with a control and does not need focus.
The page at `touchend`, `dom2`, keeps the two expando properties. -/
theorem fling_stop_no_click (p : Platform) (dom0 dom2 dom3 : Dom) (s : State) (es ee : TouchEvent)
    (touch : Touch) (t sp r : NodeId)
    (hios : p.deviceIsIOS = true) (h4 : p.deviceIsIOS4 = false)
    (hone : es.targetTouches = [touch])
    (hselection : ¬ (dom0.rangeCount ≠ 0 ∧ dom0.isCollapsed = false))
    (hrepeat : ¬ (touch.identifier ≠ 0 ∧ touch.identifier = s.lastTouchIdentifier))
    (htarget : getTargetElementFromEventTarget dom0 es.target = some t)
    (hparent : ((onTouchStart p dom0 s es).dom.node t).fastClickScrollParent = some sp)
    (hkept : (dom2.node t).fastClickScrollParent = some sp)
    (hkeptTop : (dom2.node sp).fastClickLastScrollTop =
      ((onTouchStart p dom0 s es).dom.node sp).fastClickLastScrollTop)
    (hscrolled : (dom2.node sp).scrollTop ≠ (dom0.node sp).scrollTop)
    (hresolved : resolveTarget p dom2 (onTouchStart p dom0 s es).state ee = some (some r, dom3))
    (hlabel : toLowerCase (dom3.node r).tagName = "label" → findControl dom3 r = none)
    (hfocus : toLowerCase (dom3.node r).tagName ≠ "label" → needsFocus p (dom3.node r) = false) :
    (onTouchEnd p dom2 (onTouchStart p dom0 s es).state ee).effects = [] ∧
    (onTouchEnd p dom2 (onTouchStart p dom0 s es).state ee).result = Completion.returned true := by
  obtain ⟨hdom, htg, htr⟩ :=
    onTouchStart_ios p dom0 s es touch t hios h4 hone hselection hrepeat htarget
  rw [hdom] at hparent hkeptTop
  have hrec := updateScrollParent_records dom0 t sp hparent
  obtain ⟨hp3, htop3, hscr3⟩ :=
    resolveTarget_scrollParent p dom2 dom3 _ ee t r sp htg hkept hresolved
  have hmoved : scrollParentMoved dom3 r = true := by
    unfold scrollParentMoved
    simp only [hp3, htop3, hscr3, hkeptTop, hrec]
    simpa using fun h => hscrolled h.symm
  have hfwd : ∀ fx, touchEndForward p dom3 (committed (onTouchStart p dom0 s es).state ee) ee r fx =
      { state := committed (onTouchStart p dom0 s es).state ee, dom := dom3, effects := fx,
        result := Completion.returned true } := by
    intro fx
    unfold touchEndForward
    simp [hios, h4, hmoved]
  unfold onTouchEnd
  simp only [htr, Bool.not_true, Bool.false_eq_true, if_false]
  split
  · exact ⟨rfl, rfl⟩
  · split
    · exact ⟨rfl, rfl⟩
    · unfold touchEndCommit
      rw [hresolved]
      simp only
      unfold touchEndDecide
      simp only
      by_cases hl : toLowerCase (dom3.node r).tagName = "label"
      · simp [hl, hlabel hl, hfwd]
      · simp [hl, hfocus hl, hfwd]

/-- Scenario E for claim C16, amended: on iOS the target (node 8) sits in a container (node 3)
with `scrollHeight > offsetHeight`; the container is scrolled from 0 to 40 between `touchstart`
and `touchend`, and nothing is dispatched or cancelled. -/
theorem scenarioE_fling_stop :
    (form.node 3).scrollHeight > (form.node 3).offsetHeight ∧
    ((startedOn ios form 8 0).dom.node 8).fastClickScrollParent = some 3 ∧
    (onTouchEnd ios (scrollTo (startedOn ios form 8 0).dom 3 40) (startedOn ios form 8 0).state
      (touch 8 50 100 100)).effects = [] ∧
    (onTouchEnd ios (scrollTo (startedOn ios form 8 0).dom 3 40) (startedOn ios form 8 0).state
      (touch 8 50 100 100)).result = Completion.returned true :=
  have h := fling_stop_no_click ios form (scrollTo (startedOn ios form 8 0).dom 3 40)
    (scrollTo (startedOn ios form 8 0).dom 3 40) fresh (touch 8 0 100 100) (touch 8 50 100 100)
    (touchAt 100 100) 8 3 8 (by decide) (by decide) rfl (by decide) (by decide) (by decide)
    (by decide) (by decide) (by decide) (by decide) rfl
    (fun h => absurd h (by decide)) (fun _ => by decide)
  ⟨by decide, by decide, h.1, h.2⟩

/-- Claim C16 as stated fails away from iOS: on a platform that is neither Android nor iOS the
same tap in the scrolled container dispatches a synthetic click and cancels the `touchend`. -/
theorem fling_stop_clicks_off_ios :
    (form.node 3).scrollHeight > (form.node 3).offsetHeight ∧
    (form.node 8).ancestors = [3] ∧
    (scrollTo (startedOn other form 8 0).dom 3 40).node 3 ≠ (startedOn other form 8 0).dom.node 3 ∧
    dispatched (onTouchEnd other (scrollTo (startedOn other form 8 0).dom 3 40)
        (startedOn other form 8 0).state (touch 8 50 100 100)).effects =
      [{ type := "click", target := 8, detail := 1, screenX := 100, screenY := 100,
         clientX := 100, clientY := 100, forwardedTouchEvent := true }] ∧
    Effect.preventDefault ∈ (onTouchEnd other (scrollTo (startedOn other form 8 0).dom 3 40)
        (startedOn other form 8 0).state (touch 8 50 100 100)).effects := by
  decide

/-! ## Targets that need a native click (C17) -/

/-- Claim C17, amended. For a committed tap whose resolved target is not a label, does not
need focus and needs a native click, `onTouchEnd` calls nothing (no synthetic click, no
`preventDefault`) and keeps the tracked target; and the click that follows is permitted by
`onClick` (result true, nothing cancelled, tracked target kept) provided the tracked target,
which is the node `onMouse` tests, needs a native click. -/
theorem native_click_target_passes (p : Platform) (dom dom1 : Dom) (s : State) (event : TouchEvent)
    (t r : NodeId)
    (htrack : s.trackingClick = true)
    (hdelay : ∀ last, s.lastClickTime = some last → ¬ event.timeStamp - last < s.tapDelay)
    (htimeout : event.timeStamp - s.trackingClickStart ≤ s.tapTimeout)
    (htarget : s.targetElement = some t)
    (hresolved : resolveTarget p dom s event = some (some r, dom1))
    (hlabel : toLowerCase (dom1.node r).tagName ≠ "label")
    (hfocus : needsFocus p (dom1.node r) = false)
    (hclick : needsClick p (dom1.node r) = true) :
    (onTouchEnd p dom s event).effects = [] ∧
    (onTouchEnd p dom s event).state.targetElement = some t ∧
    ∀ (dom2 : Dom) (click : MouseEvent), needsClick p (dom2.node t) = true →
      (onClick p dom2 (onTouchEnd p dom s event).state click).result = Completion.returned true ∧
      (onClick p dom2 (onTouchEnd p dom s event).state click).effects = [] ∧
      (onClick p dom2 (onTouchEnd p dom s event).state click).state.targetElement = some t := by
  have hout : (onTouchEnd p dom s event).effects = [] ∧
      (onTouchEnd p dom s event).state = committed s event := by
    rw [onTouchEnd_decide p dom dom1 s event r htrack hdelay htimeout hresolved]
    unfold touchEndDecide
    simp only [hlabel, if_false, hfocus, Bool.false_eq_true]
    unfold touchEndForward
    split
    · exact ⟨rfl, rfl⟩
    · simp [hclick]
  refine ⟨hout.1, by rw [hout.2]; exact htarget, ?_⟩
  intro dom2 click hneeds
  rw [hout.2]
  have : onClick p dom2 (committed s event) click = pass (committed s event) dom2 true := by
    unfold onClick
    simp only [committed, Bool.false_eq_true, if_false]
    split
    · rfl
    · unfold onMouse
      simp only [htarget]
      split
      · rfl
      · split
        · rfl
        · simp [hneeds, pass]
  rw [this]
  exact ⟨rfl, rfl, htarget⟩

/-- Claim C17, amended, on a video: the tap dispatches nothing and the native click passes. -/
theorem native_click_target_scenario :
    (startedOn other form 14 0).state.trackingClick = true ∧
    needsClick other (form.node 14) = true ∧
    (tapOn other form 14 0 50).effects = [] ∧
    (onClick other form (tapOn other form 14 0 50).state (nativeClick 14)).result =
      Completion.returned true ∧
    (onClick other form (tapOn other form 14 0 50).state (nativeClick 14)).effects = [] :=
  have h := native_click_target_passes other form form (startedOn other form 14 0).state
    (touch 14 50 100 100) 14 14 (by decide)
    (by intro last h
        exact absurd h
          (by simp [show (startedOn other form 14 0).state.lastClickTime = none by decide]))
    (by decide) (by decide) rfl (by decide) (by decide) (by decide)
  ⟨by decide, by decide, h.1, (h.2.2 form (nativeClick 14) (by decide)).1,
   (h.2.2 form (nativeClick 14) (by decide)).2.1⟩

/-- Claim C17 as stated fails when the target is re-derived by hit-testing (iOS 6 and 7): the
gesture starts on a plain `div` (node 7), the hit test at `touchend` finds a video (node 14),
which needs a native click, so nothing is dispatched; but `onMouse` tests the tracked `div`,
and the native click that follows is rejected and cancelled. -/
theorem retargeted_native_click_suppressed :
    (startedOn ios6 formOverVideo 7 0).state.trackingClick = true ∧
    Option.map Prod.fst (resolveTarget ios6 formOverVideo
      (startedOn ios6 formOverVideo 7 0).state (touch 7 50 100 100)) = some (some 14) ∧
    needsClick ios6 (formOverVideo.node 14) = true ∧
    needsFocus ios6 (formOverVideo.node 14) = false ∧
    (tapOn ios6 formOverVideo 7 0 50).effects = [] ∧
    (nativeClick 14).cancelable = true ∧
    (onClick ios6 formOverVideo (tapOn ios6 formOverVideo 7 0 50).state (nativeClick 14)).result =
      Completion.returned false ∧
    (onClick ios6 formOverVideo (tapOn ios6 formOverVideo 7 0 50).state (nativeClick 14)).effects =
      suppression (nativeClick 14) := by
  decide

/-! ## `touchcancel` (C18) -/

/-- Claim C18. For every state, `onTouchCancel` yields a state with `trackingClick` false and
`targetElement` null, leaves `lastClickTime`, `cancelNextClick`, the touch coordinates and the
configuration as they were, and calls nothing. -/
theorem onTouchCancel_resets_tracking (dom : Dom) (s : State) :
    (onTouchCancel dom s).state = { s with trackingClick := false, targetElement := none } ∧
    (onTouchCancel dom s).state.trackingClick = false ∧
    (onTouchCancel dom s).state.targetElement = none ∧
    (onTouchCancel dom s).state.lastClickTime = s.lastClickTime ∧
    (onTouchCancel dom s).state.cancelNextClick = s.cancelNextClick ∧
    (onTouchCancel dom s).state.touchStartX = s.touchStartX ∧
    (onTouchCancel dom s).state.touchStartY = s.touchStartY ∧
    (onTouchCancel dom s).state.touchBoundary = s.touchBoundary ∧
    (onTouchCancel dom s).state.tapDelay = s.tapDelay ∧
    (onTouchCancel dom s).state.tapTimeout = s.tapTimeout ∧
    (onTouchCancel dom s).effects = [] :=
  ⟨rfl, rfl, rfl, rfl, rfl, rfl, rfl, rfl, rfl, rfl, rfl⟩

/-! ## Options (C19) -/

/-- Claim C19, evaluated on options that supply the value 0: each of `touchBoundary`,
`tapDelay` and `tapTimeout` falls back to its default instead of taking the supplied 0. -/
theorem zero_option_replaced_by_default :
    (initialState 0 (some { touchBoundary := some 0, tapDelay := some 0,
                            tapTimeout := some 0 })).touchBoundary = 10 ∧
    (initialState 0 (some { touchBoundary := some 0, tapDelay := some 0,
                            tapTimeout := some 0 })).tapDelay = 200 ∧
    (initialState 0 (some { touchBoundary := some 0, tapDelay := some 0,
                            tapTimeout := some 0 })).tapTimeout = 700 := by
  decide

/-! ## Attach followed by destroy (C20) -/

/-- Claim C20, amended. After attach followed by `destroy`, on every platform, with or without
`stopImmediatePropagation`, whatever `notNeeded` returned, and for every layer on which
nothing of the new arbiter was registered before: every listener attach registered for the
arbiter's own handlers has been removed, so the layer's listeners are those registered before
attach, followed, when `layer.onclick` was a function and the arbiter was needed, by the
`click` listener into which attach moved that handler, which `destroy` leaves in place. The
`onclick` property of the layer is `null` when the arbiter was needed, and as it was before
attach when it was not. -/
theorem destroy_after_attach (p : Platform) (hasStopImmediatePropagation notNeeded : Bool) (inst : Nat)
    (layerId : NodeId) (layer : Layer) (options : Option Options)
    (hfresh : layer.freshFor inst) :
    (destroy p (attach p hasStopImmediatePropagation notNeeded inst layerId layer options).1
        (attach p hasStopImmediatePropagation notNeeded inst layerId layer options).2).listeners =
      layer.listeners ++
        (match layer.onclick with
          | some f =>
            if notNeeded then []
            else
              [{ type := "click"
                 callback :=
                   if layer.hijacking || !hasStopImmediatePropagation then
                     Callback.hijacked (Callback.relocated inst f)
                   else Callback.relocated inst f
                 capture := false }]
          | none => []) ∧
    (destroy p (attach p hasStopImmediatePropagation notNeeded inst layerId layer options).1
        (attach p hasStopImmediatePropagation notNeeded inst layerId layer options).2).onclick =
      (if notNeeded then layer.onclick else none) := by
  have hm := fresh_not_mem layer inst hfresh
  have hh := fresh_not_hijacked layer inst hfresh
  have hf := fresh_filter layer inst hfresh
  cases hnn : notNeeded with
  | true =>
    cases hand : p.deviceIsAndroid <;> cases hhij : layer.hijacking <;>
      cases honclick : layer.onclick <;>
      simp [attach, destroy, Layer.removeEventListener, Layer.nativeRemove, Handle.method,
        hand, hhij, honclick, hf, hh, Callback.ownedBy]
  | false =>
    cases hand : p.deviceIsAndroid <;> cases hsip : hasStopImmediatePropagation <;>
      cases hhij : layer.hijacking <;> cases honclick : layer.onclick <;>
      simp [attach, destroy, Layer.addEventListener, Layer.nativeAdd,
        Layer.removeEventListener, Layer.nativeRemove, Handle.method,
        hand, hhij, honclick, hf, hh, hm, Callback.ownedBy, List.filter_append,
        List.filter_cons]

/-- Claim C20, amended, on two layers. On Android for a layer without an `onclick` handler,
after attach and `destroy` the listeners are exactly those registered before and `onclick` is
still `null`. For a layer with an `onclick` handler, the listeners are those registered before
followed by the relocated handler, and `onclick` is `null`. -/
theorem destroy_after_attach_scenario :
    plainLayer.freshFor 9 ∧
    (attach android true false 9 0 plainLayer none).2.listeners.length = 9 ∧
    (destroy android (attach android true false 9 0 plainLayer none).1
      (attach android true false 9 0 plainLayer none).2).listeners = plainLayer.listeners ∧
    (destroy android (attach android true false 9 0 plainLayer none).1
      (attach android true false 9 0 plainLayer none).2).onclick = none ∧
    layerWithOnclick.freshFor 9 ∧
    (destroy other (attach other true false 9 0 layerWithOnclick none).1
      (attach other true false 9 0 layerWithOnclick none).2).listeners =
      layerWithOnclick.listeners ++
        [{ type := "click", callback := Callback.relocated 9 2, capture := false }] ∧
    (destroy other (attach other true false 9 0 layerWithOnclick none).1
      (attach other true false 9 0 layerWithOnclick none).2).onclick = none :=
  have h := destroy_after_attach android true false 9 0 plainLayer none ⟨by decide, by decide⟩
  have h2 := destroy_after_attach other true false 9 0 layerWithOnclick none
    ⟨by decide, by decide⟩
  ⟨⟨by decide, by decide⟩, by decide, h.1, h.2, ⟨by decide, by decide⟩, h2.1, h2.2⟩

/-- Claim C20 as stated fails for a layer with an `onclick` handler: after attach and
`destroy` the layer has one listener more than before, the relocated handler, and its
`onclick` property, which held the handler before attach, is `null`. -/
theorem destroy_leaves_relocated_onclick :
    layerWithOnclick.freshFor 9 ∧
    (destroy other (attach other true false 9 0 layerWithOnclick none).1
      (attach other true false 9 0 layerWithOnclick none).2).listeners =
      layerWithOnclick.listeners ++
        [{ type := "click", callback := Callback.relocated 9 2, capture := false }] ∧
    (destroy other (attach other true false 9 0 layerWithOnclick none).1
      (attach other true false 9 0 layerWithOnclick none).2).listeners ≠
      layerWithOnclick.listeners ∧
    layerWithOnclick.onclick = some 2 ∧
    (destroy other (attach other true false 9 0 layerWithOnclick none).1
      (attach other true false 9 0 layerWithOnclick none).2).onclick = none :=
  ⟨⟨by decide, by decide⟩, by decide, by decide, rfl, by decide⟩

/-! ## Destroy twice, and the arbiter that is not needed (C21, C22) -/

/-- Claim C21. Calling `destroy` twice leaves the layer (its listeners, its `onclick`, its
replaced methods) as a single call leaves it, for every arbiter and layer. `destroy` assigns no
field of the arbiter and reads no property of `null` or `undefined`, so neither call changes
the arbiter state or raises an error. -/
theorem destroy_twice_same (p : Platform) (h : Handle) (layer : Layer) :
    destroy p h (destroy p h layer) = destroy p h layer := by
  cases hand : p.deviceIsAndroid <;> cases hhij : layer.hijacking <;>
    by_cases hmem : h.method Method.onClick ∈ layer.hijackedCallbacks <;>
    simp [destroy, Layer.removeEventListener, Layer.nativeRemove, hand, hhij, hmem,
      List.filter_filter] <;>
    (congr 1; funext a
     simp only [Bool.and_assoc, Bool.and_comm, Bool.and_left_comm, Bool.and_self,
       Bool.and_self_left])

/-- Claim C22. When `notNeeded(layer)` is true, attach registers no listener, replaces neither
`addEventListener` nor `removeEventListener` and leaves `layer.onclick` alone (the layer is
returned as it was), and the handle it returns holds the initial field values. -/
theorem attach_not_needed_inert (p : Platform) (b : Browser) (style : Style) (hasStopImmediatePropagation : Bool)
    (inst : Nat) (layerId : NodeId) (layer : Layer) (options : Option Options)
    (hnot : notNeeded p b style = Completion.returned true) :
    attachIn p b style hasStopImmediatePropagation inst layerId layer options =
      some ({ state := initialState layerId options, inst := inst, bound := false }, layer) := by
  unfold attachIn
  rw [hnot]
  simp [attach]

/-- Claim C22 on BlackBerry 10.3 with a fixed viewport: the layer keeps its `onclick` handler
and its one listener. -/
theorem attach_not_needed_scenario :
    notNeeded (detect blackBerry103) (fixedViewport blackBerry103) noTouchAction =
      Completion.returned true ∧
    attachIn (detect blackBerry103) (fixedViewport blackBerry103) noTouchAction true 9 0
        layerWithOnclick none =
      some ({ state := fresh, inst := 9, bound := false }, layerWithOnclick) :=
  ⟨by decide,
   attach_not_needed_inert (detect blackBerry103) (fixedViewport blackBerry103) noTouchAction
     true 9 0 layerWithOnclick none (by decide)⟩

/-! ## Repeated touch identifiers (C23) -/

/-- Claim C23, amended. On iOS other than iOS 4, while no text is selected, a single-touch
`touchstart` whose touch identifier is non-zero and equal to `lastTouchIdentifier` calls
`preventDefault`, returns false and leaves the whole state as it was; a `touchstart` whose
identifier is 0 is not treated as a repeat and starts tracking its target, whatever
`lastTouchIdentifier` is. -/
theorem onTouchStart_repeated_identifier (p : Platform) (dom : Dom) (s : State) (event : TouchEvent) (touch : Touch)
    (hios : p.deviceIsIOS = true) (h4 : p.deviceIsIOS4 = false)
    (hone : event.targetTouches = [touch])
    (hselection : ¬ (dom.rangeCount ≠ 0 ∧ dom.isCollapsed = false)) :
    (touch.identifier ≠ 0 → touch.identifier = s.lastTouchIdentifier →
      (onTouchStart p dom s event).state = s ∧
      (onTouchStart p dom s event).effects = [Effect.preventDefault] ∧
      (onTouchStart p dom s event).result = Completion.returned false) ∧
    (touch.identifier = 0 →
      ∀ t, getTargetElementFromEventTarget dom event.target = some t →
        (onTouchStart p dom s event).state.trackingClick = true ∧
        (onTouchStart p dom s event).state.targetElement = some t ∧
        (onTouchStart p dom s event).state.trackingClickStart = event.timeStamp ∧
        (onTouchStart p dom s event).result = Completion.returned true) := by
  have hsel : (dom.rangeCount != 0 && !dom.isCollapsed) = false := by
    rw [Bool.eq_false_iff]
    intro h
    apply hselection
    simpa using h
  constructor
  · intro hnz hsame
    have hrep : (truthy touch.identifier && touch.identifier == s.lastTouchIdentifier) = true := by
      rw [← hsame]
      simp [truthy, hnz]
    have hout : onTouchStart p dom s event =
        { state := s, dom := dom, effects := [Effect.preventDefault],
          result := Completion.returned false } := by
      unfold onTouchStart
      simp [hios, hsel, h4, hone, hrep]
    rw [hout]
    exact ⟨rfl, rfl, rfl⟩
  · intro hzero t htarget
    have hrep : (truthy touch.identifier && touch.identifier == s.lastTouchIdentifier) = false := by
      simp [truthy, hzero]
    have hout : onTouchStart p dom s event =
        touchStartTrack { s with lastTouchIdentifier := touch.identifier }
          (updateScrollParent dom t) event (some t) := by
      unfold onTouchStart
      simp [hios, hsel, h4, hone, hrep, htarget]
    rw [hout]
    unfold touchStartTrack
    simp [hone]

/-- Claim C23, amended, on a second `touchstart` carrying the identifier of the first. -/
theorem onTouchStart_repeated_scenario :
    (startedOn ios page 7 0).state.lastTouchIdentifier = 1 ∧
    (touch 7 300 100 100).targetTouches = [touchAt 100 100] ∧
    (onTouchStart ios page (startedOn ios page 7 0).state (touch 7 300 100 100)).effects =
      [Effect.preventDefault] ∧
    (onTouchStart ios page (startedOn ios page 7 0).state (touch 7 300 100 100)).result =
      Completion.returned false :=
  have h := (onTouchStart_repeated_identifier ios page (startedOn ios page 7 0).state
    (touch 7 300 100 100) (touchAt 100 100) (by decide) (by decide) rfl (by decide)).1
    (by decide) (by decide)
  ⟨by decide, rfl, h.2.1, h.2.2⟩

/-- Claim C23 as stated fails while text is selected: the selection test comes first, so the
`touchstart` with the repeated identifier returns true and `preventDefault` is not called. -/
theorem repeated_identifier_with_selection :
    ios.deviceIsIOS = true ∧ ios.deviceIsIOS4 = false ∧
    (touch 7 300 100 100).targetTouches = [touchAt 100 100] ∧
    (touchAt 100 100).identifier ≠ 0 ∧
    (touchAt 100 100).identifier = (startedOn ios page 7 0).state.lastTouchIdentifier ∧
    (onTouchStart ios pageWithSelection (startedOn ios page 7 0).state
      (touch 7 300 100 100)).effects = [] ∧
    (onTouchStart ios pageWithSelection (startedOn ios page 7 0).state
      (touch 7 300 100 100)).result = Completion.returned true := by
  decide

/-! ## `notNeeded` (C24, C27, C28) -/

/-- Claim C24, evaluated on a touch-capable BlackBerry 10 user agent without a `Version/x.y`
token: the version match is `null`, reading its element 1 is a `TypeError`, and attach, which
calls `notNeeded` in the constructor, ends with it. -/
theorem notNeeded_throws_without_version :
    (detect blackBerryNoVersion).deviceIsBlackBerry10 = true ∧
    versionMatch blackBerryNoVersion.data = none ∧
    notNeeded (detect blackBerryNoVersion) (fixedViewport blackBerryNoVersion) noTouchAction =
      Completion.typeError ∧
    attachIn (detect blackBerryNoVersion) (fixedViewport blackBerryNoVersion) noTouchAction true
      9 0 plainLayer none = none := by
  decide

/-- Claim C27. For a layer style with `touchAction` equal to `none` or `manipulation`, or
`msTouchAction` equal to `none`, `notNeeded` returns true whenever it returns (platform
detection completes), whatever the user agent, the device flags and the viewport are: its
only other outcome is the `TypeError` of the BlackBerry branch. -/
theorem notNeeded_touch_action (p : Platform) (b : Browser) (style : Style)
    (hstyle : style.touchAction = "none" ∨ style.touchAction = "manipulation" ∨
      style.msTouchAction = "none") :
    notNeeded p b style = Completion.returned true ∨
    notNeeded p b style = Completion.typeError := by
  have htail : notNeededStyle b style = true := by
    unfold notNeededStyle
    rcases hstyle with h | h | h <;> simp [h]
  have hbb : notNeededBlackBerry p b style = Completion.returned true ∨
      notNeededBlackBerry p b style = Completion.typeError := by
    unfold notNeededBlackBerry
    rw [htail]
    split
    · split
      · right; rfl
      · split
        · split
          · split
            · left; rfl
            · split <;> (left; rfl)
          · left; rfl
        · left; rfl
    · left; rfl
  unfold notNeeded
  split
  · left; rfl
  · split
    · split
      · split
        · split
          · left; rfl
          · split
            · left; rfl
            · exact hbb
        · exact hbb
      · left; rfl
    · exact hbb

/-- Claim C27 on a browser for which no other test of `notNeeded` applies: without a
touch-action value the result is false, with `touch-action: none` it is true. -/
theorem notNeeded_touch_action_scenario :
    touchActionNone.touchAction = "none" ∧
    notNeeded (detect plainBrowser.userAgent) plainBrowser noTouchAction =
      Completion.returned false ∧
    notNeeded (detect plainBrowser.userAgent) plainBrowser touchActionNone =
      Completion.returned true :=
  ⟨rfl, by decide,
   (notNeeded_touch_action (detect plainBrowser.userAgent) plainBrowser touchActionNone
     (Or.inl rfl)).elim id (fun h => absurd h (by decide))⟩

/-- Claim C28, evaluated on a touch-capable BlackBerry 10 user agent announcing version 11.0,
on a page whose viewport meta tag contains `user-scalable=no`: the test
`major >= 10 && minor >= 3` fails on the minor number 0 and `notNeeded` returns false; for
version 10.3 it returns true. -/
theorem notNeeded_blackberry11_false :
    (detect blackBerry11).deviceIsBlackBerry10 = true ∧
    versionMatch blackBerry11.data = some ("11".data, "0".data) ∧
    (fixedViewport blackBerry11).metaViewport = some "width=device-width, user-scalable=no" ∧
    notNeeded (detect blackBerry11) (fixedViewport blackBerry11) noTouchAction =
      Completion.returned false ∧
    notNeeded (detect blackBerry103) (fixedViewport blackBerry103) noTouchAction =
      Completion.returned true := by
  decide

/-! ## `needsClick` (C25) -/

/-- Claim C25, amended. The function `needsClick` returns true exactly for a disabled button,
select, textarea or input, a file input on iOS, a label, an iframe, a video, and an element
whose class name contains the word `needsclick`; for every other element it returns false. -/
theorem needsClick_iff (p : Platform) (target : Node) :
    needsClick p target = true ↔
      ((toLowerCase target.tagName = "button" ∨ toLowerCase target.tagName = "select" ∨
          toLowerCase target.tagName = "textarea" ∨ toLowerCase target.tagName = "input") ∧
        target.disabled = true) ∨
      (p.deviceIsIOS = true ∧ toLowerCase target.tagName = "input" ∧ target.type = "file") ∨
      toLowerCase target.tagName = "label" ∨
      toLowerCase target.tagName = "iframe" ∨
      toLowerCase target.tagName = "video" ∨
      testWord "needsclick" target.className = true := by
  unfold needsClick
  simp only
  generalize toLowerCase target.tagName = name
  by_cases h1 : name = "button"
  · subst h1; cases target.disabled <;> simp
  by_cases h2 : name = "select"
  · subst h2; cases target.disabled <;> simp
  by_cases h3 : name = "textarea"
  · subst h3; cases target.disabled <;> simp
  by_cases h4 : name = "input"
  · subst h4
    cases target.disabled <;> cases p.deviceIsIOS <;> by_cases hf : target.type = "file" <;>
      simp [hf]
  by_cases h5 : name = "label"
  · subst h5; simp
  by_cases h6 : name = "iframe"
  · subst h6; simp
  by_cases h7 : name = "video"
  · subst h7; simp
  simp [h1, h2, h3, h4, h5, h6, h7]

/-- Claim C25 as stated fails on a label: an enabled label without the class `needsclick`
needs a native click. -/
theorem needsClick_label :
    toLowerCase emailLabel.tagName = "label" ∧
    emailLabel.disabled = false ∧
    testWord "needsclick" emailLabel.className = false ∧
    needsClick other emailLabel = true ∧ needsClick ios emailLabel = true := by
  decide

/-! ## Stale taps on targets that need focus (C26) -/

/-- Claim C26, amended. When a committed tap lands on a target that is not a label and needs
focus, but the `touchend` is more than 100 ms after tracking started, `onTouchEnd` calls
nothing (no focus, no synthetic click, no `preventDefault`), clears `targetElement` and
returns false, and every click that follows is permitted by `onMouse` and by `onClick`. -/
theorem stale_focus_tap_passes (p : Platform) (dom dom1 : Dom) (s : State) (event : TouchEvent) (r : NodeId)
    (htrack : s.trackingClick = true)
    (hdelay : ∀ last, s.lastClickTime = some last → ¬ event.timeStamp - last < s.tapDelay)
    (htimeout : event.timeStamp - s.trackingClickStart ≤ s.tapTimeout)
    (hresolved : resolveTarget p dom s event = some (some r, dom1))
    (hlabel : toLowerCase (dom1.node r).tagName ≠ "label")
    (hfocus : needsFocus p (dom1.node r) = true)
    (hstale : event.timeStamp - s.trackingClickStart > 100) :
    (onTouchEnd p dom s event).effects = [] ∧
    (onTouchEnd p dom s event).state.targetElement = none ∧
    (onTouchEnd p dom s event).result = Completion.returned false ∧
    ∀ (dom2 : Dom) (click : MouseEvent),
      (onMouse p dom2 (onTouchEnd p dom s event).state click).result = Completion.returned true ∧
      (onMouse p dom2 (onTouchEnd p dom s event).state click).effects = [] ∧
      (onClick p dom2 (onTouchEnd p dom s event).state click).result = Completion.returned true ∧
      (onClick p dom2 (onTouchEnd p dom s event).state click).effects = [] := by
  have hout : onTouchEnd p dom s event =
      { state := { committed s event with targetElement := none }, dom := dom1, effects := [],
        result := Completion.returned false } := by
    rw [onTouchEnd_decide p dom dom1 s event r htrack hdelay htimeout hresolved]
    unfold touchEndDecide
    simp [hlabel, hfocus, hstale]
  rw [hout]
  refine ⟨rfl, rfl, rfl, ?_⟩
  intro dom2 click
  have hm : onMouse p dom2 { committed s event with targetElement := none } click =
      pass { committed s event with targetElement := none } dom2 true := by
    simp [onMouse]
  have hc : onClick p dom2 { committed s event with targetElement := none } click =
      pass { committed s event with targetElement := none } dom2 true := by
    unfold onClick
    simp only [committed, Bool.false_eq_true, if_false]
    split
    · rfl
    · simp [onMouse, pass]
  simp only [hm, hc]
  exact ⟨rfl, rfl, rfl, rfl⟩

/-- Claim C26, amended, on a text input tapped for 150 ms. -/
theorem stale_focus_tap_scenario :
    (started fresh 5 0).trackingClick = true ∧
    needsFocus other (page.node 5) = true ∧
    (tap fresh 5 0 150).effects = [] ∧
    (tap fresh 5 0 150).state.targetElement = none ∧
    (tap fresh 5 0 150).result = Completion.returned false ∧
    (onClick other page (tap fresh 5 0 150).state (nativeClick 5)).result =
      Completion.returned true :=
  have h := stale_focus_tap_passes other page page (started fresh 5 0) (touch 5 150 100 100) 5
    (by decide)
    (by intro last h
        exact absurd h (by simp [show (started fresh 5 0).lastClickTime = none by decide]))
    (by decide) rfl (by decide) (by decide) (by decide)
  ⟨by decide, by decide, h.1, h.2.1, h.2.2.1, (h.2.2.2 page (nativeClick 5)).2.2.1⟩

/-- Claim C26 as stated fails on a label: a label of class `needsfocus` needs focus, yet after
a committed 150 ms tap on it `targetElement` still holds the label. -/
theorem stale_needsfocus_label_keeps_target :
    (startedOn other form 13 0).state.trackingClick = true ∧
    needsFocus other (form.node 13) = true ∧
    (150 : Int) - (startedOn other form 13 0).state.trackingClickStart > 100 ∧
    (tapOn other form 13 0 150).state.lastClickTime = some 150 ∧
    (tapOn other form 13 0 150).state.targetElement = some 13 := by
  decide

/-! ## The double-tap rule on a fresh arbiter (C29) -/

/-- Claim C29. While `lastClickTime` has never been set, the double-tap rule does not fire,
for every time stamp: `onTouchEnd` either returns with the state as it was or commits the tap,
never through the `cancelNextClick` branch; and `onTouchStart` calls `preventDefault` at most
when it aborts on a repeated touch identifier (result false, state as it was), which cannot
happen while `lastTouchIdentifier` is still 0, as on a fresh arbiter: there it calls
nothing. -/
theorem double_tap_rule_silent_when_fresh (p : Platform) (dom : Dom) (s : State) (event : TouchEvent)
    (hnever : s.lastClickTime = none) :
    (s.lastTouchIdentifier = 0 → (onTouchStart p dom s event).effects = []) ∧
    (Effect.preventDefault ∈ (onTouchStart p dom s event).effects →
      (onTouchStart p dom s event).result = Completion.returned false ∧
      (onTouchStart p dom s event).state = s) ∧
    (onTouchEnd p dom s event = pass s dom true ∨
      onTouchEnd p dom s event = touchEndCommit p dom s event) := by
  have htrk : ∀ (s0 : State) (dom0 : Dom) (te : Option NodeId),
      s0.lastClickTime = none → (touchStartTrack s0 dom0 event te).effects = [] := by
    intro s0 dom0 te h0
    unfold touchStartTrack
    cases event.targetTouches.head? <;> simp [elapsedLess, h0]
  refine ⟨?_, ?_, ?_⟩
  · intro hid
    unfold onTouchStart
    simp only
    split
    · rfl
    · split
      · split
        · rfl
        · split
          · split
            · rfl
            · rename_i touch _
              split
              · rename_i hrep
                simp [truthy, hid] at hrep
              · split
                · rfl
                · exact htrk _ _ _ hnever
          · exact htrk _ _ _ hnever
      · exact htrk _ _ _ hnever
  · unfold onTouchStart
    simp only
    split
    · intro h; simp [pass] at h
    · split
      · split
        · intro h; simp [pass] at h
        · split
          · split
            · intro h; simp at h
            · split
              · intro _; exact ⟨rfl, rfl⟩
              · split
                · intro h; simp at h
                · intro h; simp [htrk, hnever] at h
          · intro h; simp [htrk, hnever] at h
      · intro h; simp [htrk, hnever] at h
  · unfold onTouchEnd
    simp only [hnever, elapsedLess, Bool.false_eq_true, if_false]
    split
    · left; rfl
    · split
      · left; rfl
      · right; rfl

/-- Claim C29 on a fresh arbiter at time stamp 5, below `tapDelay = 200`. -/
theorem double_tap_rule_fresh_scenario :
    fresh.lastClickTime = none ∧ fresh.lastTouchIdentifier = 0 ∧
    (5 : Int) < fresh.tapDelay ∧
    (onTouchStart ios page fresh (touch 7 5 100 100)).effects = [] ∧
    (onTouchStart other page fresh (touch 7 5 100 100)).effects = [] :=
  ⟨rfl, rfl, by decide,
   (double_tap_rule_silent_when_fresh ios page fresh (touch 7 5 100 100) rfl).1 rfl,
   (double_tap_rule_silent_when_fresh other page fresh (touch 7 5 100 100) rfl).1 rfl⟩

/-! ## At most one synthetic event per `touchend` (C30) -/

/-- The tail of `onTouchEnd` dispatches at most once, and cancels only when it dispatches. -/
theorem touchEndForward_calls (p : Platform) (dom : Dom) (s : State) (event : TouchEvent)
    (t : NodeId) (fx : List Effect) (touch : Touch) (rest : List Touch)
    (htouch : event.changedTouches = touch :: rest)
    (hfd : dispatched fx = []) (hfp : Effect.preventDefault ∉ fx) :
    (dispatched (touchEndForward p dom s event t fx).effects).length ≤ 1 ∧
    (Effect.preventDefault ∈ (touchEndForward p dom s event t fx).effects →
      (dispatched (touchEndForward p dom s event t fx).effects).length = 1) := by
  obtain ⟨-, hdisp⟩ := sendClick_of_touch p dom t event touch rest htouch
  unfold touchEndForward
  split
  · simp [hfd, hfp]
  · split
    · simp [dispatched_append, hfd, hdisp, dispatched]
    · simp [hfd, hfp]

theorem touchEndDecide_calls (p : Platform) (dom : Dom) (s : State) (event : TouchEvent)
    (start : Int) (t : NodeId) (touch : Touch) (rest : List Touch)
    (htouch : event.changedTouches = touch :: rest) :
    (dispatched (touchEndDecide p dom s event start t).effects).length ≤ 1 ∧
    (Effect.preventDefault ∈ (touchEndDecide p dom s event start t).effects →
      (dispatched (touchEndDecide p dom s event start t).effects).length = 1) := by
  obtain ⟨-, hfd, hfp⟩ := focus_calls p dom t
  obtain ⟨hok, hdisp⟩ := sendClick_of_touch p dom t event touch rest htouch
  obtain ⟨-, hsp⟩ := sendClick_quiet p dom t event
  unfold touchEndDecide
  simp only
  split
  · split
    · split
      · simp [hfd, hfp]
      · exact touchEndForward_calls p dom s event _ _ touch rest htouch hfd hfp
    · exact touchEndForward_calls p dom s event _ _ touch rest htouch rfl (by simp)
  · split
    · split
      · simp [dispatched]
      · simp only [hok, Bool.not_true, Bool.false_eq_true, if_false]
        split
        · simp [dispatched_append, hfd, hdisp, dispatched]
        · simp [dispatched_append, hfd, hdisp, hfp, hsp]
    · exact touchEndForward_calls p dom s event _ _ touch rest htouch rfl (by simp)

/-- Claim C30. For every state, platform and `touchend` (with a changed touch, as every
`touchend` has), `onTouchEnd` dispatches at most one synthetic event, and whenever it calls
`preventDefault` it dispatches exactly one; when `trackingClick` is false it dispatches
nothing, cancels nothing, returns true and leaves the state as it was. -/
theorem onTouchEnd_dispatch_bound (p : Platform) (dom : Dom) (s : State) (event : TouchEvent)
    (hchanged : event.changedTouches ≠ []) :
    (dispatched (onTouchEnd p dom s event).effects).length ≤ 1 ∧
    (Effect.preventDefault ∈ (onTouchEnd p dom s event).effects →
      (dispatched (onTouchEnd p dom s event).effects).length = 1) ∧
    (s.trackingClick = false →
      dispatched (onTouchEnd p dom s event).effects = [] ∧
      Effect.preventDefault ∉ (onTouchEnd p dom s event).effects ∧
      (onTouchEnd p dom s event).result = Completion.returned true ∧
      (onTouchEnd p dom s event).state = s) := by
  obtain ⟨touch, rest, htouch⟩ : ∃ touch rest, event.changedTouches = touch :: rest := by
    cases h : event.changedTouches with
    | nil => exact absurd h hchanged
    | cons a l => exact ⟨a, l, rfl⟩
  have hmain : (dispatched (onTouchEnd p dom s event).effects).length ≤ 1 ∧
      (Effect.preventDefault ∈ (onTouchEnd p dom s event).effects →
        (dispatched (onTouchEnd p dom s event).effects).length = 1) := by
    unfold onTouchEnd
    split
    · simp [pass, dispatched]
    · split
      · simp [pass, dispatched]
      · split
        · simp [pass, dispatched]
        · unfold touchEndCommit
          split
          · simp [dispatched]
          · simp [dispatched]
          · exact touchEndDecide_calls p _ _ event _ _ touch rest htouch
  refine ⟨hmain.1, hmain.2, ?_⟩
  intro hidle
  rw [onTouchEnd_idle p dom s event hidle]
  simp [pass, dispatched]

/-- Claim C30 on Scenario A: `preventDefault` is called and exactly one event dispatched. -/
theorem onTouchEnd_dispatch_scenario :
    (touch 7 150 100 100).changedTouches ≠ [] ∧
    Effect.preventDefault ∈ (tap fresh 7 0 150).effects ∧
    (dispatched (tap fresh 7 0 150).effects).length = 1 :=
  have h := onTouchEnd_dispatch_bound other page (started fresh 7 0) (touch 7 150 100 100)
    (by decide)
  ⟨by decide, by decide, h.2.1 (by decide)⟩

end FastClick
